import Mathlib

/-!
dotmesh: controller registry, mount alignment, registry store and user directory

A shallow embedding of `cmd/dotmesh-server/controller_fsm.go`,
`pkg/store/kvdb_registry.go` and `pkg/user/user.go`.

* Go maps are association lists with `mapGet` / `mapSet` / `mapDelete`.
* A Go `error` is `Option GoError` (`none` is `nil`); a nullable pointer is an `Option`.
* Locks are not modelled: every function is one sequential run.
* Every call that leaves the process (coordination store, registry, driver,
  container runtime, starting a goroutine) appends an `Effect` to the state's
  `trace`, in program order.
* Collaborators whose code is outside these files are fields of `Env`; they
  receive the whole state, trace included, so that two successive calls may
  answer differently.
-/

namespace Dotmesh

/-! ## Go maps -/

/-- Map read `m[k]` with the comma-ok form: `none` when the key is absent. -/
def mapGet {V : Type} (m : List (String × V)) (k : String) : Option V :=
  match m with
  | [] => none
  | (k', v) :: rest => if k' = k then some v else mapGet rest k

/-- Builtin `delete(m, k)`. -/
def mapDelete {V : Type} (m : List (String × V)) (k : String) : List (String × V) :=
  match m with
  | [] => []
  | (k', v) :: rest => if k' = k then mapDelete rest k else (k', v) :: mapDelete rest k

/-- Map write `m[k] = v`. -/
def mapSet {V : Type} (m : List (String × V)) (k : String) (v : V) : List (String × V) :=
  (k, v) :: mapDelete m k

/-! ## Data -/

/-- Go error values. `errorf` keeps the format string of the `fmt.Errorf` call
and its arguments rendered as strings. -/
inductive GoError where
  | ErrFilesystemDeleted
  | ErrIDNotSet
  | errorf (format : String) (args : List String)
  | external (msg : String)
  deriving DecidableEq, Repr

/-- The part of the controller's `filesystem` record read by this file. -/
structure filesystem where
  Mounted : Bool
  deriving DecidableEq, Repr

/-- A `*fsMachine`: `addr` stands for the identity of the pointed-to object. -/
structure fsMachine where
  addr : Nat
  filesystemId : String
  filesystem : filesystem
  deriving DecidableEq, Repr

/-- Response event of a controller; only `Name` is inspected here. -/
structure Event where
  Name : String
  deriving DecidableEq, Repr

structure Origin where
  FilesystemId : String
  SnapshotId : String
  deriving DecidableEq, Repr

structure Clone where
  FilesystemId : String
  Origin : Origin
  deriving DecidableEq, Repr

/-- Calls that leave the process, in the order the program makes them. -/
inductive Effect where
  | tombstoneLookup (filesystemId : String)
  | newFilesystemMachine (filesystemId : String)
  | run (fs : fsMachine)
  | cleanupDockerFilesystemState
  | deleteFilesystemInZFS (filesystemId : String)
  | CurrentMasterNode (filesystemId : String)
  | mount (filesystemId : String)
  | unmount (filesystemId : String)
  | RegisterClone (name topLevelFilesystemId : String) (clone : Clone)
  | etcdSet (key value : String)
  deriving DecidableEq, Repr

/-- The fields of `InMemoryState` used by `controller_fsm.go`, the contents of
the coordination store reached through `etcdClient`, and the effect trace. -/
structure InMemoryState where
  myNodeId : String
  filesystems : List (String × fsMachine)
  globalContainerCache : List (String × List String)
  etcdClient : List (String × String)
  trace : List Effect
  deriving DecidableEq, Repr

/-- Collaborators defined outside `controller_fsm.go`. -/
structure Env where
  /-- The constant `ETCD_PREFIX`. -/
  ETCD_PREFIX : String
  /-- Transport failure of the next request of `s.etcdClient`, if any. -/
  etcdFault : InMemoryState → Option GoError
  /-- The function `isFilesystemDeletedInEtcd(filesystemId)`: whether the
  coordination store holds a deletion tombstone for the dataset, and the error
  of the look-up. -/
  isFilesystemDeletedInEtcd : String → InMemoryState → Bool × Option GoError
  /-- The constructor `newFilesystemMachine(filesystemId, s)`. -/
  newFilesystemMachine : String → InMemoryState → fsMachine
  /-- The container-runtime hook `s.cleanupDockerFilesystemState()`. -/
  cleanupDockerFilesystemState : InMemoryState → Option GoError
  /-- The driver call `deleteFilesystemInZFS(filesystemId)`. -/
  deleteFilesystemInZFS : String → InMemoryState → Option GoError
  /-- The registry call `s.registry.CurrentMasterNode(filesystemId)`. -/
  CurrentMasterNode : String → InMemoryState → String × Option GoError
  /-- The registry call `s.registry.RegisterClone(name, topLevelFilesystemId, clone)`:
  its error and the contents of the coordination store it leaves behind. -/
  RegisterClone : String → String → Clone → InMemoryState →
    Option GoError × List (String × String)
  /-- The response event of `fs.mount()`. -/
  mount : fsMachine → InMemoryState → Event
  /-- The response event of `fs.unmount()`. -/
  unmount : fsMachine → InMemoryState → Event

/-- Append one effect to the trace. -/
def emit (e : Effect) (s : InMemoryState) : InMemoryState :=
  { s with trace := s.trace ++ [e] }

/-! ## controller_fsm.go -/

def ErrFilesystemDeleted : GoError := GoError.ErrFilesystemDeleted

def GetFilesystemMachine (filesystemId : String) (s : InMemoryState) :
    Option fsMachine × Option GoError :=
  match mapGet s.filesystems filesystemId with
  | none => (none, some (GoError.errorf "No such filesystem id %s" [filesystemId]))
  | some fsm => (some fsm, none)

def DeleteFilesystemFromMap (filesystemId : String) (s : InMemoryState) : InMemoryState :=
  { s with filesystems := mapDelete s.filesystems filesystemId }

def DeleteFilesystem (env : Env) (filesystemId : String) (s : InMemoryState) :
    Option GoError × InMemoryState :=
  let errors : List GoError := []
  let s := DeleteFilesystemFromMap filesystemId s
  let s := { s with globalContainerCache := mapDelete s.globalContainerCache filesystemId }
  let err := env.cleanupDockerFilesystemState s
  let s := emit Effect.cleanupDockerFilesystemState s
  let errors := match err with
    | some e => errors ++ [e]
    | none => errors
  let err := env.deleteFilesystemInZFS filesystemId s
  let s := emit (Effect.deleteFilesystemInZFS filesystemId) s
  let errors := match err with
    | some e => errors ++ [e]
    | none => errors
  -- `len(errors) != 0` only logs
  let _logged := errors.length != 0
  (none, s)

/-- The closure at the head of `InitFilesystemMachine`: returns `(fs, deleted)`. -/
def InitFilesystemMachine.lookupOrCreate (env : Env) (filesystemId : String)
    (s : InMemoryState) : Option fsMachine × Bool × InMemoryState :=
  match mapGet s.filesystems filesystemId with
  | some fs => (some fs, false, s)
  | none =>
    -- second look-up, under the write lock
    match mapGet s.filesystems filesystemId with
    | some fs => (some fs, false, s)
    | none =>
      -- Don't create a new fsMachine if we've been deleted
      match env.isFilesystemDeletedInEtcd filesystemId s,
          emit (Effect.tombstoneLookup filesystemId) s with
      | (_, some _err), s => (none, false, s)
      | (deleted, none), s =>
        if deleted then (none, deleted, s)
        else
          let fs := env.newFilesystemMachine filesystemId s
          let s := emit (Effect.newFilesystemMachine filesystemId) s
          let s := { s with filesystems := mapSet s.filesystems filesystemId fs }
          -- `go s.filesystems[filesystemId].run()` reads back the entry just written
          match mapGet s.filesystems filesystemId with
          | none => (none, deleted, s)
          | some started =>
            let s := emit (Effect.run started) s
            (mapGet s.filesystems filesystemId, deleted, s)

def InitFilesystemMachine (env : Env) (filesystemId : String) (s : InMemoryState) :
    Option fsMachine × Option GoError × InMemoryState :=
  match InitFilesystemMachine.lookupOrCreate env filesystemId s with
  | (fs, deleted, s) =>
    if deleted then
      match DeleteFilesystem env filesystemId s with
      | (_err, s) => (none, some ErrFilesystemDeleted, s)
    else (fs, none, s)

/-- One run of the closure that `AlignMountStateWithMasters` hands to
`tryUntilSucceeds`. -/
def AlignMountStateWithMasters.attempt (env : Env) (filesystemId : String)
    (s : InMemoryState) : Option GoError × InMemoryState :=
  match mapGet s.filesystems filesystemId with
  | none => (some (GoError.errorf "cannot find %v in fsMachines" [filesystemId]), s)
  | some fs =>
    -- `masterNode, _ := s.registry.CurrentMasterNode(filesystemId)`, used for logging only
    let _logged := (env.CurrentMasterNode filesystemId s).1
    let s := emit (Effect.CurrentMasterNode filesystemId) s
    let mounted := fs.filesystem.Mounted
    match env.CurrentMasterNode filesystemId s with
    | (_, some _err) =>
      (some (GoError.errorf "failed to get master node for filesystem: %s" [filesystemId]),
        emit (Effect.CurrentMasterNode filesystemId) s)
    | (masterNode, none) =>
      let s := emit (Effect.CurrentMasterNode filesystemId) s
      -- not mounted but should be (we are the master)
      let first : Option GoError × InMemoryState :=
        if masterNode = s.myNodeId ∧ mounted = false then
          let responseEvent := env.mount fs s
          let s := emit (Effect.mount filesystemId) s
          if responseEvent.Name ≠ "mounted" then
            (some (GoError.errorf "Couldn't mount filesystem: %v" [responseEvent.Name]), s)
          else (none, s)
        else (none, s)
      match first with
      | (some err, s) => (some err, s)
      | (none, s) =>
        -- mounted but shouldn't be (we are not the master)
        if masterNode ≠ s.myNodeId ∧ mounted = true then
          let responseEvent := env.unmount fs s
          let s := emit (Effect.unmount filesystemId) s
          if responseEvent.Name ≠ "unmounted" then
            (some (GoError.errorf "Couldn't unmount filesystem: %v" [responseEvent.Name]), s)
          else (none, s)
        else (none, s)

/-- The retry wrapper `tryUntilSucceeds` is defined elsewhere and is passed in. -/
def AlignMountStateWithMasters (env : Env)
    (tryUntilSucceeds : (InMemoryState → Option GoError × InMemoryState) → String →
      InMemoryState → Option GoError × InMemoryState)
    (filesystemId : String) (s : InMemoryState) : Option GoError × InMemoryState :=
  tryUntilSucceeds (AlignMountStateWithMasters.attempt env filesystemId)
    ("aligning mount state of " ++ filesystemId ++ " with masters") s

/-- The etcd client call `Set(ctx, key, value, &client.SetOptions{PrevExist: client.PrevNoExist})`:
a create-only write, which fails when the request fails or the key is present. -/
def etcdSetPrevNoExist (env : Env) (key value : String) (s : InMemoryState) :
    Option GoError × InMemoryState :=
  let s1 := emit (Effect.etcdSet key value) s
  match env.etcdFault s with
  | some err => (some err, s1)
  | none =>
    match mapGet s.etcdClient key with
    | some _ => (some (GoError.external "Key already exists"), s1)
    | none => (none, { s1 with etcdClient := mapSet s1.etcdClient key value })

/-- The first step of `ActivateClone`: the call of `s.registry.RegisterClone`. -/
def ActivateClone.register (env : Env) (topLevelFilesystemId originFilesystemId
    originSnapshotId newCloneFilesystemId newBranchName : String) (s : InMemoryState) :
    Option GoError × InMemoryState :=
  let clone : Clone :=
    { FilesystemId := newCloneFilesystemId,
      Origin := { FilesystemId := originFilesystemId, SnapshotId := originSnapshotId } }
  match env.RegisterClone newBranchName topLevelFilesystemId clone s with
  | (err, store) =>
    (err, emit (Effect.RegisterClone newBranchName topLevelFilesystemId clone)
      { s with etcdClient := store })

/-- The key `ETCD_PREFIX/filesystems/masters/{id}`. -/
def masterKey (env : Env) (filesystemId : String) : String :=
  env.ETCD_PREFIX ++ "/filesystems/masters/" ++ filesystemId

def ActivateClone (env : Env) (topLevelFilesystemId originFilesystemId originSnapshotId
    newCloneFilesystemId newBranchName : String) (s : InMemoryState) :
    String × Option GoError × InMemoryState :=
  match ActivateClone.register env topLevelFilesystemId originFilesystemId originSnapshotId
      newCloneFilesystemId newBranchName s with
  | (some err, s) => ("failed-clone-registration", some err, s)
  | (none, s) =>
    -- spin off a state machine
    match InitFilesystemMachine env newCloneFilesystemId s with
    | (_, some err, s) => ("failed-to-initialize-state-machine", some err, s)
    | (_, none, s) =>
      -- claim the clone as mine, so that it can be mounted here
      match etcdSetPrevNoExist env (masterKey env newCloneFilesystemId) s.myNodeId s with
      | (some err, s) => ("failed-make-cloner-master", some err, s)
      | (none, s) => ("", none, s)

/-- The effects appended to the trace between state `s` and the later state `s'`. -/
def effectsSince (s s' : InMemoryState) : List Effect :=
  s'.trace.drop s.trace.length

/-! ## kvdb_registry.go -/

namespace store

abbrev Bytes := List Nat

/-- The kvdb library's `KVPair`, with the fields read here. -/
structure KVPair where
  Key : String
  Value : Bytes
  ModifiedIndex : Nat
  deriving DecidableEq, Repr

/-- The record `types.KVMeta` filled by `getMeta`. -/
structure KVMeta where
  Key : String
  ModifiedIndex : Nat
  deriving DecidableEq, Repr

/-- The record `types.RegistryFilesystem`. -/
structure RegistryFilesystem where
  Id : String
  Name : String
  OwnerId : String
  CollaboratorIds : List String
  Meta : Option KVMeta
  deriving DecidableEq, Repr

/-- The record `types.Clone`. -/
structure Clone where
  FilesystemId : String
  Origin : Origin
  Name : String
  Meta : Option KVMeta
  deriving DecidableEq, Repr

structure SetOptions where
  KVFlags : Nat
  PrevValue : Bytes
  deriving DecidableEq, Repr

/-- Requests sent to the key-value store. -/
inductive KVOp where
  | Create (key : String) (value : Bytes) (ttl : Nat)
  | CompareAndSet (key : String) (value : Bytes) (flags : Nat) (prevValue : Bytes)
  | Enumerate (key : String)
  deriving DecidableEq, Repr

/-- What a handler call does: it returns an error value, or dereferences a nil
pointer. -/
inductive Outcome where
  | returned (err : Option GoError)
  | nilDereference
  deriving DecidableEq, Repr

/-- The store and what it relies on from outside `kvdb_registry.go`: the
answers of the kvdb client, the codec methods `s.encode` and `s.decode`,
`json.Unmarshal` and `getMeta`. -/
structure KVDBFilesystemStore where
  Create : String → Bytes → Nat → Option GoError
  CompareAndSet : KVPair → Nat → Bytes → Option GoError
  Enumerate : String → List KVPair × Option GoError
  WatchTree : String → Nat → (String → Option KVPair → Option GoError → Outcome) →
    Option GoError
  encodeFilesystem : RegistryFilesystem → Bytes × Option GoError
  decodeFilesystem : Bytes → Except GoError RegistryFilesystem
  decodeClone : Bytes → Except GoError Clone
  unmarshalFilesystem : Bytes → Except GoError RegistryFilesystem
  unmarshalClone : Bytes → Except GoError Clone
  getMeta : KVPair → KVMeta

/-- Modelled from the spec: the constant `RegistryFilesystemsPrefix` is declared
outside `kvdb_registry.go`; the dataset tree is keyed
`registry/filesystems/{namespace}/{name}`. -/
def RegistryFilesystemsPrefix : String := "registry/filesystems/"

/-- Modelled from the spec: the constant `RegistryClonesPrefix` is declared
outside `kvdb_registry.go`; the clones tree is keyed
`registry/clones/{parentDID}/{branchName}`. -/
def RegistryClonesPrefix : String := "registry/clones/"

/-- The characters of `fmt.Sprintf(format, args...)` for the verbs `%s` and `%v`
with string arguments: each verb is replaced by the next argument, and by
`%!s(MISSING)` or `%!v(MISSING)` when the arguments have run out. -/
def sprintfChars : List Char → List String → List Char
  | [], _ => []
  | [c], _ => [c]
  | c :: d :: rest, args =>
    if c = '%' ∧ (d = 's' ∨ d = 'v') then
      match args with
      | a :: args => a.data ++ sprintfChars rest args
      | [] => ['%', '!', d] ++ "(MISSING)".data ++ sprintfChars rest []
    else c :: sprintfChars (d :: rest) args

/-- The text of an error, as `%s` prints it: the formatted message of an error
made by `fmt.Errorf`. -/
def errorText : GoError → String
  | GoError.ErrFilesystemDeleted => "filesystem no longer exists, it was deleted"
  | GoError.ErrIDNotSet => "ID not set"
  | GoError.errorf format args => String.mk (sprintfChars format.data args)
  | GoError.external msg => msg

def SetFilesystem (s : KVDBFilesystemStore) (f : RegistryFilesystem) (_opts : SetOptions) :
    Option GoError × List KVOp :=
  if f.Id = "" then (some GoError.ErrIDNotSet, [])
  else if f.OwnerId = "" then (some (GoError.errorf "name not set" []), [])
  else
    match s.encodeFilesystem f with
    | (_, some err) => (some err, [])
    | (bts, none) =>
      let key := RegistryFilesystemsPrefix ++ f.OwnerId ++ "/" ++ f.Name
      (s.Create key bts 0, [KVOp.Create key bts 0])

def CompareAndSetFilesystem (s : KVDBFilesystemStore) (f : RegistryFilesystem)
    (opts : SetOptions) : Option GoError × List KVOp :=
  -- OwnerId == namespace
  if f.OwnerId = "" then (some (GoError.errorf "owner ID not set" []), [])
  else if f.Name = "" then (some (GoError.errorf "name not set" []), [])
  else
    match s.encodeFilesystem f with
    | (_, some err) => (some err, [])
    | (bts, none) =>
      let kvp : KVPair :=
        { Key := RegistryFilesystemsPrefix ++ f.OwnerId ++ "/" ++ f.Name, Value := bts,
          ModifiedIndex := 0 }
      let op := KVOp.CompareAndSet kvp.Key kvp.Value opts.KVFlags opts.PrevValue
      match s.CompareAndSet kvp opts.KVFlags opts.PrevValue with
      | some err =>
        (some (GoError.errorf "CompareAndSetFilesystem failed, error: %s" [errorText err]), [op])
      | none => (none, [op])

/-- The handler `watchFunc` built by `WatchFilesystems`, together with the
records the callback `cb` was invoked with. -/
def WatchFilesystems.watchFunc (s : KVDBFilesystemStore)
    (cb : RegistryFilesystem → Option GoError) (keyPrefix : String) (kvp : Option KVPair)
    (err : Option GoError) : Outcome × List RegistryFilesystem :=
  -- `if err != nil` only logs
  let _logged := err.isSome
  match kvp with
  | none => (Outcome.nilDereference, [])
  | some kvp =>
    match s.decodeFilesystem kvp.Value with
    | Except.error err =>
      (Outcome.returned (some (GoError.errorf
        "failed to decode value from key '%s', error: %s" [keyPrefix, errorText err])), [])
    | Except.ok f =>
      let f := { f with Meta := some (s.getMeta kvp) }
      (Outcome.returned (cb f), [f])

def WatchFilesystems (s : KVDBFilesystemStore) (idx : Nat)
    (cb : RegistryFilesystem → Option GoError) : Option GoError :=
  s.WatchTree RegistryFilesystemsPrefix idx
    (fun keyPrefix kvp err => (WatchFilesystems.watchFunc s cb keyPrefix kvp err).1)

/-- The handler `watchFunc` built by `WatchClones`, together with the records
the callback `cb` was invoked with. -/
def WatchClones.watchFunc (s : KVDBFilesystemStore) (cb : Clone → Option GoError)
    (keyPrefix : String) (kvp : Option KVPair) (err : Option GoError) :
    Outcome × List Clone :=
  -- `if err != nil` only logs
  let _logged := err.isSome
  match kvp with
  | none => (Outcome.nilDereference, [])
  | some kvp =>
    match s.decodeClone kvp.Value with
    | Except.error err =>
      (Outcome.returned (some (GoError.errorf
        "failed to decode value from key '%s', error: %s" [keyPrefix, errorText err])), [])
    | Except.ok c =>
      let c := { c with Meta := some (s.getMeta kvp) }
      (Outcome.returned (cb c), [c])

def WatchClones (s : KVDBFilesystemStore) (idx : Nat) (cb : Clone → Option GoError) :
    Option GoError :=
  s.WatchTree RegistryClonesPrefix idx
    (fun keyPrefix kvp err => (WatchClones.watchFunc s cb keyPrefix kvp err).1)

/-- The body of the `for _, kvp := range pairs` loop of `ListFilesystems`. -/
def ListFilesystems.step (s : KVDBFilesystemStore) (result : List RegistryFilesystem)
    (kvp : KVPair) : List RegistryFilesystem :=
  match s.unmarshalFilesystem kvp.Value with
  | Except.error _ => result
  | Except.ok val => result ++ [{ val with Meta := some (s.getMeta kvp) }]

def ListFilesystems (s : KVDBFilesystemStore) : List RegistryFilesystem × Option GoError :=
  match s.Enumerate RegistryFilesystemsPrefix with
  | (_, some err) => ([], some err)
  | (pairs, none) => (pairs.foldl (ListFilesystems.step s) [], none)

/-- The body of the `for _, kvp := range pairs` loop of `ListClones`. -/
def ListClones.step (s : KVDBFilesystemStore) (result : List Clone) (kvp : KVPair) :
    List Clone :=
  match s.unmarshalClone kvp.Value with
  | Except.error _ => result
  | Except.ok val => result ++ [{ val with Meta := some (s.getMeta kvp) }]

def ListClones (s : KVDBFilesystemStore) : List Clone × Option GoError :=
  match s.Enumerate RegistryClonesPrefix with
  | (_, some err) => ([], some err)
  | (pairs, none) => (pairs.foldl (ListClones.step s) [], none)

end store

/-! ## user.go -/

namespace user

/-- An element of a Go `[]byte`. -/
abbrev Byte := Fin 256

structure User where
  Id : String
  Name : String
  Email : String
  Salt : List Byte
  Password : List Byte
  ApiKey : String
  Metadata : List (String × String)
  deriving DecidableEq, Repr

structure Query where
  Ref : String
  Selector : String
  deriving DecidableEq, Repr

inductive AuthenticationType where
  | AuthenticationTypeNone
  | AuthenticationTypePassword
  | AuthenticationTypeAPIKey
  deriving DecidableEq, Repr

/-- The part of a `kv.Node` read by this file. -/
structure Node where
  Value : String
  deriving DecidableEq, Repr

/-- Writes sent to the index of the key-value store. -/
inductive IndexOp where
  | AddToIndex (keyPrefix name id : String)
  deriving DecidableEq, Repr

/-- The manager and what it relies on from outside `user.go`: the answers of
its `kv` field, `validator.IsEmail`, `labels.Parse` with the matcher of the
parsed selector, `json.Unmarshal`, `scrypt.Key` and the scrypt constants. -/
structure DefaultManager where
  kvGet : String → String → Node × Option GoError
  kvList : String → List Node × Option GoError
  kvAddToIndex : String → String → String → Option GoError
  IsEmail : String → Bool
  labelsParse : String → Except GoError (List (String × String) → Bool)
  unmarshalUser : String → Except GoError User
  scryptKey : List Byte → List Byte → Nat → Nat → Nat → Nat → List Byte × Option GoError
  SCRYPT_N : Nat
  SCRYPT_R : Nat
  SCRYPT_P : Nat
  HASH_BYTES : Nat

def UsersPrefix : String := "users"

/-- The UTF-8 bytes of one code point. -/
def utf8Bytes (c : Nat) : List Byte :=
  if c < 0x80 then [Fin.ofNat c]
  else if c < 0x800 then [Fin.ofNat (0xC0 + c / 0x40), Fin.ofNat (0x80 + c % 0x40)]
  else if c < 0x10000 then
    [Fin.ofNat (0xE0 + c / 0x1000), Fin.ofNat (0x80 + c / 0x40 % 0x40),
      Fin.ofNat (0x80 + c % 0x40)]
  else
    [Fin.ofNat (0xF0 + c / 0x40000), Fin.ofNat (0x80 + c / 0x1000 % 0x40),
      Fin.ofNat (0x80 + c / 0x40 % 0x40), Fin.ofNat (0x80 + c % 0x40)]

/-- The conversion `[]byte(s)` of a string. -/
def bytesOf (s : String) : List Byte :=
  s.data.flatMap (fun ch => utf8Bytes ch.toNat)

/-- The function `subtle.ConstantTimeByteEq(x, y)`:
`int((uint32(x^y) - 1) >> 31)`. -/
def ConstantTimeByteEq (x y : Nat) : Nat :=
  (((x ^^^ y) + 4294967296 - 1) % 4294967296) >>> 31

/-- The loop `v |= x[i] ^ y[i]` of `subtle.ConstantTimeCompare`, on a `byte`. -/
def ConstantTimeCompare.loop : List Byte → List Byte → Nat → Nat
  | a :: x, b :: y, v => ConstantTimeCompare.loop x y ((v ||| (a.val ^^^ b.val)) % 256)
  | _, _, v => v

/-- The function `subtle.ConstantTimeCompare(x, y)`. -/
def ConstantTimeCompare (x y : List Byte) : Nat :=
  if x.length ≠ y.length then 0
  else ConstantTimeByteEq (ConstantTimeCompare.loop x y 0) 0

/-- The method `DefaultManager.List`. -/
def ListUsers (m : DefaultManager) (selector : String) : List User × Option GoError :=
  match m.labelsParse selector with
  | Except.error err => ([], some err)
  | Except.ok sel =>
    match m.kvList UsersPrefix with
    | (_, some _err) => ([], none)
    | (ns, none) =>
      (ns.foldl (fun users n =>
        match m.unmarshalUser n.Value with
        | Except.error _ => users
        | Except.ok user => if sel user.Metadata then users ++ [user] else users) [], none)

/-- The first user of the range loop that satisfies `p`. -/
def firstUser (p : User → Bool) : List User → Option User
  | [] => none
  | u :: rest => if p u then some u else firstUser p rest

def fullSearch (m : DefaultManager) (ref : String) : Except GoError User × List IndexOp :=
  match ListUsers m "" with
  | (_, some err) => (Except.error err, [])
  | (users, none) =>
    match firstUser (fun u => u.Name = ref) users with
    | some u =>
      -- adding user to the index for later faster lookup; its error is only logged
      let _logged := m.kvAddToIndex UsersPrefix u.Name u.Id
      (Except.ok u, [IndexOp.AddToIndex UsersPrefix u.Name u.Id])
    | none => (Except.error (GoError.errorf "User name=%s not found" [ref]), [])

def getByEmail (m : DefaultManager) (email : String) : Except GoError User :=
  match ListUsers m "" with
  | (_, some err) => Except.error err
  | (users, none) =>
    match firstUser (fun u => u.Email = email) users with
    | some u => Except.ok u
    | none => Except.error (GoError.errorf "User email=%s not found" [email])

def getBySelector (m : DefaultManager) (selector : String) : Except GoError User :=
  match ListUsers m selector with
  | (_, some err) => Except.error err
  | (users, none) =>
    match users with
    | [] => Except.error (GoError.errorf "User not found" [])
    | [u] => Except.ok u
    | _ :: _ :: _ =>
      Except.error
        (GoError.errorf "more than one matches for selector=%s, use List API" [selector])

/-- The method `DefaultManager.Get`. Each of its returns is a user with a nil
error or a nil user with an error, hence the `Except`. -/
def Get (m : DefaultManager) (q : Query) : Except GoError User × List IndexOp :=
  if q.Selector ≠ "" then (getBySelector m q.Selector, [])
  else if m.IsEmail q.Ref then (getByEmail m q.Ref, [])
  else
    match m.kvGet UsersPrefix q.Ref with
    | (_, some _err) => fullSearch m q.Ref
    | (u, none) =>
      match m.unmarshalUser u.Value with
      | Except.error err => (Except.error err, [])
      | Except.ok user => (Except.ok user, [])

def Authenticate (m : DefaultManager) (username password : String) :
    (Option User × AuthenticationType × Option GoError) × List IndexOp :=
  match Get m { Ref := username, Selector := "" } with
  | (Except.error err, ops) => ((none, AuthenticationType.AuthenticationTypeNone, some err), ops)
  | (Except.ok user, ops) =>
    -- See if API key matches
    if ConstantTimeCompare (bytesOf user.ApiKey) (bytesOf password) = 1 then
      ((some user, AuthenticationType.AuthenticationTypeAPIKey, none), ops)
    else
      -- checking password
      match m.scryptKey (bytesOf password) user.Salt m.SCRYPT_N m.SCRYPT_R m.SCRYPT_P
          m.HASH_BYTES with
      | (_, some err) => ((none, AuthenticationType.AuthenticationTypeNone, some err), ops)
      | (hashedPassword, none) =>
        if ConstantTimeCompare user.Password hashedPassword = 1 then
          ((some user, AuthenticationType.AuthenticationTypePassword, none), ops)
        else
          ((none, AuthenticationType.AuthenticationTypeNone,
            some (GoError.errorf "Username or password doesn't match" [])), ops)

/-- The fields of a `User` as `reflect.ValueOf(user)` lists them: the name of
each field, in declaration order, with the `%v` rendering of its value.
The renderings of `[]byte` and of `map[string]string` are passed in. -/
def userFields (renderBytes : List Byte → String)
    (renderMap : List (String × String) → String) (user : User) : List (String × String) :=
  [("Id", user.Id), ("Name", user.Name), ("Email", user.Email),
    ("Salt", renderBytes user.Salt), ("Password", renderBytes user.Password),
    ("ApiKey", user.ApiKey), ("Metadata", renderMap user.Metadata)]

/-- The body of the loop of `User.String`. -/
def User.String.step (toString : String) (field : String × String) : String :=
  if field.1 = "ApiKey" then toString ++ (" " ++ field.1 ++ "=" ++ "****" ++ ",")
  else toString ++ (" " ++ field.1 ++ "=" ++ field.2 ++ ",")

def User.String (renderBytes : List Byte → String)
    (renderMap : List (String × String) → String) (user : User) : String :=
  (userFields renderBytes renderMap user).foldl User.String.step ""

end user

/-! ## Concrete collaborators and states used by the examples -/

/-- A healthy node: the coordination store answers, the driver accepts. -/
def exampleEnv : Env where
  ETCD_PREFIX := "/dotmesh.io"
  etcdFault := fun _ => none
  isFilesystemDeletedInEtcd := fun filesystemId s =>
    match mapGet s.etcdClient ("/dotmesh.io/filesystems/deleted/" ++ filesystemId) with
    | some _ => (true, none)
    | none => (false, none)
  newFilesystemMachine := fun filesystemId s =>
    { addr := s.trace.length, filesystemId := filesystemId, filesystem := { Mounted := false } }
  cleanupDockerFilesystemState := fun _ => none
  deleteFilesystemInZFS := fun _ _ => none
  CurrentMasterNode := fun filesystemId s =>
    match mapGet s.etcdClient ("/dotmesh.io/filesystems/masters/" ++ filesystemId) with
    | some node => (node, none)
    | none => ("", some (GoError.external "no master"))
  RegisterClone := fun name topLevelFilesystemId clone s =>
    match mapGet s.etcdClient
        ("/dotmesh.io/registry/clones/" ++ topLevelFilesystemId ++ "/" ++ name) with
    | some _ => (some (GoError.external "clone exists"), s.etcdClient)
    | none =>
      (none, mapSet s.etcdClient
        ("/dotmesh.io/registry/clones/" ++ topLevelFilesystemId ++ "/" ++ name)
        clone.FilesystemId)
  mount := fun _ _ => { Name := "mounted" }
  unmount := fun _ _ => { Name := "unmounted" }

/-- As `exampleEnv`, with every coordination-store request failing. -/
def unreachableEnv : Env :=
  { exampleEnv with
    etcdFault := fun _ => some (GoError.external "etcd unreachable"),
    isFilesystemDeletedInEtcd := fun _ _ => (false, some (GoError.external "etcd unreachable")) }

def emptyState : InMemoryState :=
  { myNodeId := "node-A", filesystems := [], globalContainerCache := [], etcdClient := [],
    trace := [] }

/-- The store holds a tombstone for `ds-B`; no controller exists. -/
def tombstonedState : InMemoryState :=
  { emptyState with etcdClient := [("/dotmesh.io/filesystems/deleted/ds-B", "{}")] }

def controllerB : fsMachine :=
  { addr := 7, filesystemId := "ds-B", filesystem := { Mounted := true } }

/-- The store holds a tombstone for `ds-B` and a controller for it is running. -/
def staleState : InMemoryState :=
  { tombstonedState with filesystems := [("ds-B", controllerB)] }

def controllerA : fsMachine :=
  { addr := 1, filesystemId := "ds-A", filesystem := { Mounted := false } }

/-- The state left by the first `InitFilesystemMachine("ds-A")` on `emptyState`. -/
def createdState : InMemoryState :=
  { emptyState with
    filesystems := [("ds-A", controllerA)],
    trace := [Effect.tombstoneLookup "ds-A", Effect.newFilesystemMachine "ds-A",
      Effect.run controllerA] }

/-- This node is the master of `ds-C`, whose controller is not mounted. -/
def alignToMasterState : InMemoryState :=
  { emptyState with
    filesystems := [("ds-C", { addr := 3, filesystemId := "ds-C", filesystem := { Mounted := false } })],
    etcdClient := [("/dotmesh.io/filesystems/masters/ds-C", "node-A")] }

/-- Node `node-Z` is the master of `ds-D`, whose controller is mounted here. -/
def alignAwayState : InMemoryState :=
  { emptyState with
    filesystems := [("ds-D", { addr := 4, filesystemId := "ds-D", filesystem := { Mounted := true } })],
    etcdClient := [("/dotmesh.io/filesystems/masters/ds-D", "node-Z")] }

/-- As `exampleEnv`, with the cleanup hook and the driver destroy both failing. -/
def failingHooksEnv : Env :=
  { exampleEnv with
    cleanupDockerFilesystemState := fun _ => some (GoError.external "docker unavailable"),
    deleteFilesystemInZFS := fun _ _ => some (GoError.external "dataset does not exist") }

/-- Two controllers and two container-cache entries. -/
def twoDatasetsState : InMemoryState :=
  { emptyState with
    filesystems := [("ds-A", controllerA), ("ds-B", controllerB)],
    globalContainerCache := [("ds-A", ["web"]), ("ds-B", ["db"])] }

/-- Nothing is registered under `ds-P` and `ds-C1` has no master. -/
def cloneReadyState : InMemoryState := emptyState

def cloneC1 : Clone :=
  { FilesystemId := "ds-C1", Origin := { FilesystemId := "ds-P", SnapshotId := "snap-1" } }

def controllerC1 : fsMachine :=
  { addr := 2, filesystemId := "ds-C1", filesystem := { Mounted := false } }

/-- The state after the clone `feature` of `ds-P` was registered on `cloneReadyState`. -/
def cloneRegisteredState : InMemoryState :=
  { cloneReadyState with
    etcdClient := [("/dotmesh.io/registry/clones/ds-P/feature", "ds-C1")],
    trace := [Effect.RegisterClone "feature" "ds-P" cloneC1] }

/-- The state after the controller of `ds-C1` was initialised on `cloneRegisteredState`. -/
def cloneInitialisedState : InMemoryState :=
  { cloneRegisteredState with
    filesystems := [("ds-C1", controllerC1)],
    trace := [Effect.RegisterClone "feature" "ds-P" cloneC1, Effect.tombstoneLookup "ds-C1",
      Effect.newFilesystemMachine "ds-C1", Effect.run controllerC1] }

/-- The state after mastership of `ds-C1` was claimed on `cloneInitialisedState`. -/
def cloneActivatedState : InMemoryState :=
  { cloneInitialisedState with
    etcdClient := [("/dotmesh.io/filesystems/masters/ds-C1", "node-A"),
      ("/dotmesh.io/registry/clones/ds-P/feature", "ds-C1")],
    trace := [Effect.RegisterClone "feature" "ds-P" cloneC1, Effect.tombstoneLookup "ds-C1",
      Effect.newFilesystemMachine "ds-C1", Effect.run controllerC1,
      Effect.etcdSet "/dotmesh.io/filesystems/masters/ds-C1" "node-A"] }

namespace store

/-- What `ListFilesystems` is to return for one enumerated pair: the decoded
record with `Meta` taken from that pair, or nothing when the value does not
decode. -/
def filesystemOfPair (s : KVDBFilesystemStore) (kvp : KVPair) : Option RegistryFilesystem :=
  match s.unmarshalFilesystem kvp.Value with
  | Except.error _ => none
  | Except.ok val => some { val with Meta := some (s.getMeta kvp) }

/-- What `ListClones` is to return for one enumerated pair. -/
def cloneOfPair (s : KVDBFilesystemStore) (kvp : KVPair) : Option Clone :=
  match s.unmarshalClone kvp.Value with
  | Except.error _ => none
  | Except.ok val => some { val with Meta := some (s.getMeta kvp) }

def applesFilesystem : RegistryFilesystem :=
  { Id := "fs-1", Name := "apples", OwnerId := "alice", CollaboratorIds := [], Meta := none }

def pearsFilesystem : RegistryFilesystem :=
  { Id := "fs-2", Name := "pears", OwnerId := "bob", CollaboratorIds := [], Meta := none }

def featureClone : Clone :=
  { FilesystemId := "ds-C1", Origin := { FilesystemId := "ds-P", SnapshotId := "snap-1" },
    Name := "feature", Meta := none }

/-- A toy codec: the value `[1]` is `applesFilesystem`, `[2]` is
`pearsFilesystem`, anything else is malformed. -/
def exampleDecodeFilesystem (value : Bytes) : Except GoError RegistryFilesystem :=
  if value = [1] then Except.ok applesFilesystem
  else if value = [2] then Except.ok pearsFilesystem
  else Except.error (GoError.external "unexpected end of JSON input")

def exampleDecodeClone (value : Bytes) : Except GoError Clone :=
  if value = [3] then Except.ok featureClone
  else Except.error (GoError.external "unexpected end of JSON input")

def applesPair : KVPair :=
  { Key := "registry/filesystems/alice/apples", Value := [1], ModifiedIndex := 10 }

def brokenPair : KVPair :=
  { Key := "registry/filesystems/alice/broken", Value := [9, 9], ModifiedIndex := 11 }

def pearsPair : KVPair :=
  { Key := "registry/filesystems/bob/pears", Value := [2], ModifiedIndex := 12 }

def brokenClonePair : KVPair :=
  { Key := "registry/clones/ds-P/broken", Value := [], ModifiedIndex := 20 }

def featureClonePair : KVPair :=
  { Key := "registry/clones/ds-P/feature", Value := [3], ModifiedIndex := 21 }

/-- The three pairs enumerated by `exampleStore`; the second is malformed. -/
def examplePairs : List KVPair := [applesPair, brokenPair, pearsPair]

def exampleClonePairs : List KVPair := [brokenClonePair, featureClonePair]

/-- A store that accepts every write. -/
def exampleStore : KVDBFilesystemStore where
  Create := fun _ _ _ => none
  CompareAndSet := fun _ _ _ => none
  Enumerate := fun key =>
    if key = RegistryFilesystemsPrefix then (examplePairs, none) else (exampleClonePairs, none)
  WatchTree := fun _ _ _ => none
  encodeFilesystem := fun f => ([f.Id.length, f.OwnerId.length, f.Name.length], none)
  decodeFilesystem := exampleDecodeFilesystem
  decodeClone := exampleDecodeClone
  unmarshalFilesystem := exampleDecodeFilesystem
  unmarshalClone := exampleDecodeClone
  getMeta := fun kvp => { Key := kvp.Key, ModifiedIndex := kvp.ModifiedIndex }

/-- A callback that accepts every record. -/
def acceptFilesystem (_f : RegistryFilesystem) : Option GoError := none

def acceptClone (_c : Clone) : Option GoError := none

end store

namespace user

/-- A toy key derivation: the salt followed by the password bytes. -/
def exampleScrypt (password salt : List Byte) (_n _r _p _len : Nat) :
    List Byte × Option GoError :=
  (salt ++ password, none)

/-- User `u1`, with API key `K` and password `secret`. -/
def userU1 : User :=
  { Id := "id-u1", Name := "u1", Email := "u1@example.com", Salt := [1, 2],
    Password := [1, 2, 115, 101, 99, 114, 101, 116], ApiKey := "K", Metadata := [] }

/-- A directory holding `userU1` under its id; the by-name index is empty. -/
def exampleManager : DefaultManager where
  kvGet := fun _ ref =>
    if ref = "id-u1" then ({ Value := "u1.json" }, none)
    else ({ Value := "" }, some (GoError.external "key not found"))
  kvList := fun _ => ([{ Value := "u1.json" }], none)
  kvAddToIndex := fun _ _ _ => none
  IsEmail := fun s => s.data.contains '@'
  labelsParse := fun selector =>
    if selector = "" then Except.ok (fun _ => true)
    else Except.error (GoError.external "unsupported selector")
  unmarshalUser := fun value =>
    if value = "u1.json" then Except.ok userU1
    else Except.error (GoError.external "unexpected end of JSON input")
  scryptKey := exampleScrypt
  SCRYPT_N := 32768
  SCRYPT_R := 8
  SCRYPT_P := 1
  HASH_BYTES := 32

/-- A rendering of `[]byte` that only shows the length. -/
def exampleRenderBytes (b : List Byte) : String :=
  String.mk (List.replicate b.length '*')

/-- A rendering of `map[string]string` that shows the keys. -/
def exampleRenderMap (m : List (String × String)) : String :=
  "map[" ++ String.intercalate " " (m.map (fun kv => kv.1)) ++ "]"

end user

/-! ## Facts about maps -/

theorem mapGet_mapDelete_self {V : Type} (m : List (String × V)) (k : String) :
    mapGet (mapDelete m k) k = none := by
  induction m with
  | nil => rfl
  | cons p rest ih =>
    obtain ⟨k', v⟩ := p
    by_cases h : k' = k
    · simp [mapDelete, h, ih]
    · simp [mapDelete, mapGet, h, ih]

theorem mapGet_mapDelete_ne {V : Type} (m : List (String × V)) (k k' : String)
    (h : k' ≠ k) : mapGet (mapDelete m k) k' = mapGet m k' := by
  induction m with
  | nil => rfl
  | cons p rest ih =>
    obtain ⟨k0, v⟩ := p
    by_cases h0 : k0 = k
    · have h1 : ¬ k0 = k' := fun h2 => h (h2.symm.trans h0)
      rw [mapDelete, if_pos h0, ih, mapGet, if_neg h1]
    · rw [mapDelete, if_neg h0, mapGet, mapGet, ih]

theorem mapGet_mapSet_self {V : Type} (m : List (String × V)) (k : String) (v : V) :
    mapGet (mapSet m k v) k = some v := by
  simp [mapSet, mapGet]

theorem mapGet_mapSet_ne {V : Type} (m : List (String × V)) (k k' : String) (v : V)
    (h : k' ≠ k) : mapGet (mapSet m k v) k' = mapGet m k' := by
  have h1 : ¬ k = k' := fun h2 => h h2.symm
  simp [mapSet, mapGet, h1, mapGet_mapDelete_ne m k k' h]

/-! ## Facts about `emit` -/

@[simp]
theorem emit_myNodeId (e : Effect) (s : InMemoryState) :
    (emit e s).myNodeId = s.myNodeId := rfl

@[simp]
theorem emit_filesystems (e : Effect) (s : InMemoryState) :
    (emit e s).filesystems = s.filesystems := rfl

@[simp]
theorem emit_globalContainerCache (e : Effect) (s : InMemoryState) :
    (emit e s).globalContainerCache = s.globalContainerCache := rfl

@[simp]
theorem emit_etcdClient (e : Effect) (s : InMemoryState) :
    (emit e s).etcdClient = s.etcdClient := rfl

@[simp]
theorem emit_trace (e : Effect) (s : InMemoryState) :
    (emit e s).trace = s.trace ++ [e] := rfl

/-! ## InitFilesystemMachine -/

theorem lookupOrCreate_present (env : Env) (d : String) (s : InMemoryState) (c : fsMachine)
    (h : mapGet s.filesystems d = some c) :
    InitFilesystemMachine.lookupOrCreate env d s = (some c, false, s) := by
  simp [InitFilesystemMachine.lookupOrCreate, h]

theorem InitFilesystemMachine_present (env : Env) (d : String) (s : InMemoryState)
    (c : fsMachine) (h : mapGet s.filesystems d = some c) :
    InitFilesystemMachine env d s = (some c, none, s) := by
  simp [InitFilesystemMachine, lookupOrCreate_present env d s c h]

theorem lookupOrCreate_some (env : Env) (d : String) (s s' : InMemoryState) (c : fsMachine)
    (deleted : Bool)
    (h : InitFilesystemMachine.lookupOrCreate env d s = (some c, deleted, s')) :
    deleted = false ∧ mapGet s'.filesystems d = some c := by
  unfold InitFilesystemMachine.lookupOrCreate at h
  cases hm : mapGet s.filesystems d with
  | some fs =>
    simp only [hm, Prod.mk.injEq, Option.some.injEq] at h
    obtain ⟨h1, h2, h3⟩ := h
    subst h1 h3
    exact ⟨h2.symm, hm⟩
  | none =>
    simp only [hm] at h
    rcases ht : env.isFilesystemDeletedInEtcd d s with ⟨del, err⟩
    rw [ht] at h
    cases err with
    | some e => simp at h
    | none =>
      cases del with
      | true => simp at h
      | false =>
        simp only [emit_filesystems, mapGet_mapSet_self, Bool.false_eq_true, if_false,
          Prod.mk.injEq, Option.some.injEq] at h
        obtain ⟨h1, h2, h3⟩ := h
        subst h3
        exact ⟨h2.symm, by simp [mapGet_mapSet_self, h1]⟩

/-- C1: `InitFilesystemMachine` is idempotent per dataset id. If a call for `d`
on `s` returns a non-nil controller `c` with a nil error and leaves `s'`, then a
second call for `d` on `s'` returns `c` with a nil error and leaves exactly `s'`:
the filesystems map is the same (no second insertion) and the trace is the same
(no further event loop is started, no other call is made). -/
theorem InitFilesystemMachine_idempotent (env : Env) (d : String) (s s' : InMemoryState)
    (c : fsMachine) (h : InitFilesystemMachine env d s = (some c, none, s')) :
    InitFilesystemMachine env d s' = (some c, none, s') ∧
    (InitFilesystemMachine env d s').2.2.filesystems = s'.filesystems ∧
    (InitFilesystemMachine env d s').2.2.trace = s'.trace := by
  have hget : mapGet s'.filesystems d = some c := by
    unfold InitFilesystemMachine at h
    rcases hl : InitFilesystemMachine.lookupOrCreate env d s with ⟨fs, deleted, s1⟩
    rw [hl] at h
    cases deleted with
    | true => simp at h
    | false =>
      simp only [Bool.false_eq_true, if_false, Prod.mk.injEq] at h
      obtain ⟨h1, _, h3⟩ := h
      subst h1 h3
      exact (lookupOrCreate_some env d s s1 c false hl).2
  have h2 := InitFilesystemMachine_present env d s' c hget
  rw [h2]
  exact ⟨rfl, rfl, rfl⟩

/-- The first call creates the controller of `ds-A` on an empty registry; the
second returns it and changes nothing. -/
theorem InitFilesystemMachine_idempotent_witness :
    InitFilesystemMachine exampleEnv "ds-A" emptyState = (some controllerA, none, createdState) ∧
    InitFilesystemMachine exampleEnv "ds-A" createdState =
      (some controllerA, none, createdState) ∧
    (InitFilesystemMachine exampleEnv "ds-A" createdState).2.2.filesystems =
      createdState.filesystems ∧
    (InitFilesystemMachine exampleEnv "ds-A" createdState).2.2.trace = createdState.trace :=
  ⟨by decide,
    InitFilesystemMachine_idempotent exampleEnv "ds-A" emptyState createdState controllerA
      (by decide)⟩

/-- C2: tombstoned init. When the filesystems map has no entry for `d` and the
tombstone look-up answers `(true, nil)`, `InitFilesystemMachine(d)` returns
`(nil, ErrFilesystemDeleted)`; the calls it makes are the look-up, the cleanup
hook and the driver destroy, so no controller is constructed and none is
started; and the resulting map has no entry for `d`. -/
theorem InitFilesystemMachine_tombstoned (env : Env) (d : String) (s : InMemoryState)
    (hmap : mapGet s.filesystems d = none)
    (htomb : env.isFilesystemDeletedInEtcd d s = (true, none)) :
    (InitFilesystemMachine env d s).1 = none ∧
    (InitFilesystemMachine env d s).2.1 = some ErrFilesystemDeleted ∧
    (InitFilesystemMachine env d s).2.2.trace =
      s.trace ++ [Effect.tombstoneLookup d, Effect.cleanupDockerFilesystemState,
        Effect.deleteFilesystemInZFS d] ∧
    (∀ fs, Effect.run fs ∉ [Effect.tombstoneLookup d, Effect.cleanupDockerFilesystemState,
        Effect.deleteFilesystemInZFS d]) ∧
    (∀ i, Effect.newFilesystemMachine i ∉ [Effect.tombstoneLookup d,
        Effect.cleanupDockerFilesystemState, Effect.deleteFilesystemInZFS d]) ∧
    mapGet (InitFilesystemMachine env d s).2.2.filesystems d = none := by
  simp [InitFilesystemMachine, InitFilesystemMachine.lookupOrCreate, hmap, htomb,
    DeleteFilesystem, DeleteFilesystemFromMap, mapGet_mapDelete_self]

/-- The scenario of the spec: a tombstone for `ds-B` is preloaded. -/
theorem InitFilesystemMachine_tombstoned_witness :
    (mapGet tombstonedState.filesystems "ds-B" = none ∧
      exampleEnv.isFilesystemDeletedInEtcd "ds-B" tombstonedState = (true, none)) ∧
    (InitFilesystemMachine exampleEnv "ds-B" tombstonedState).1 = none ∧
    (InitFilesystemMachine exampleEnv "ds-B" tombstonedState).2.1 =
      some ErrFilesystemDeleted ∧
    (InitFilesystemMachine exampleEnv "ds-B" tombstonedState).2.2.trace =
      tombstonedState.trace ++ [Effect.tombstoneLookup "ds-B",
        Effect.cleanupDockerFilesystemState, Effect.deleteFilesystemInZFS "ds-B"] ∧
    (∀ fs, Effect.run fs ∉ [Effect.tombstoneLookup "ds-B",
        Effect.cleanupDockerFilesystemState, Effect.deleteFilesystemInZFS "ds-B"]) ∧
    (∀ i, Effect.newFilesystemMachine i ∉ [Effect.tombstoneLookup "ds-B",
        Effect.cleanupDockerFilesystemState, Effect.deleteFilesystemInZFS "ds-B"]) ∧
    mapGet (InitFilesystemMachine exampleEnv "ds-B" tombstonedState).2.2.filesystems "ds-B" =
      none :=
  ⟨by decide,
    InitFilesystemMachine_tombstoned exampleEnv "ds-B" tombstonedState (by decide)
      (by decide)⟩

/-- C3, as stated, fails: in `staleState` the map holds a controller for `ds-B`
and the store holds its tombstone, yet `InitFilesystemMachine("ds-B")` returns
the controller with a nil error and the map keeps the entry. -/
theorem InitFilesystemMachine_stale_counterexample :
    mapGet staleState.filesystems "ds-B" = some controllerB ∧
    mapGet staleState.etcdClient
        (exampleEnv.ETCD_PREFIX ++ "/filesystems/deleted/" ++ "ds-B") = some "{}" ∧
    exampleEnv.isFilesystemDeletedInEtcd "ds-B" staleState = (true, none) ∧
    ¬ ((InitFilesystemMachine exampleEnv "ds-B" staleState).2.1 = some ErrFilesystemDeleted ∧
      mapGet (InitFilesystemMachine exampleEnv "ds-B" staleState).2.2.filesystems "ds-B" =
        none) := by
  decide

/-- C3, amended: a controller already held for `d` is reused, tombstone or not.
For every state whose filesystems map holds a controller `c` for `d`,
`InitFilesystemMachine(d)` returns `(c, nil)` and leaves the state as it was:
the entry for `d` stays and the coordination store is not consulted. -/
theorem InitFilesystemMachine_reuses_running (env : Env) (d : String) (s : InMemoryState)
    (c : fsMachine) (h : mapGet s.filesystems d = some c) :
    InitFilesystemMachine env d s = (some c, none, s) ∧
    mapGet (InitFilesystemMachine env d s).2.2.filesystems d = some c ∧
    (InitFilesystemMachine env d s).2.2.trace = s.trace := by
  rw [InitFilesystemMachine_present env d s c h]
  exact ⟨rfl, h, rfl⟩

theorem InitFilesystemMachine_reuses_running_witness :
    mapGet staleState.filesystems "ds-B" = some controllerB ∧
    InitFilesystemMachine exampleEnv "ds-B" staleState = (some controllerB, none, staleState) ∧
    mapGet (InitFilesystemMachine exampleEnv "ds-B" staleState).2.2.filesystems "ds-B" =
      some controllerB ∧
    (InitFilesystemMachine exampleEnv "ds-B" staleState).2.2.trace = staleState.trace :=
  ⟨by decide,
    InitFilesystemMachine_reuses_running exampleEnv "ds-B" staleState controllerB (by decide)⟩

/-- C4, evaluated where it fails: the map has no entry for `ds-A` and the
tombstone look-up itself fails. `InitFilesystemMachine("ds-A")` returns a nil
controller together with a nil error; no controller is created. -/
theorem InitFilesystemMachine_lookup_failure_nil_nil :
    mapGet emptyState.filesystems "ds-A" = none ∧
    (unreachableEnv.isFilesystemDeletedInEtcd "ds-A" emptyState).2 =
      some (GoError.external "etcd unreachable") ∧
    InitFilesystemMachine unreachableEnv "ds-A" emptyState =
      (none, none, { emptyState with trace := [Effect.tombstoneLookup "ds-A"] }) := by
  decide

/-! ## DeleteFilesystem -/

/-- C8: `DeleteFilesystem` is best-effort and always succeeds. Whatever the
cleanup hook and the driver destroy return, the call returns nil; afterwards
neither the filesystems map nor the container cache has an entry for `d`, every
other entry of both is as before, and the calls made are the cleanup hook
followed by the driver destroy, the latter also when the hook failed. -/
theorem DeleteFilesystem_best_effort (env : Env) (d : String) (s : InMemoryState) :
    (DeleteFilesystem env d s).1 = none ∧
    mapGet (DeleteFilesystem env d s).2.filesystems d = none ∧
    mapGet (DeleteFilesystem env d s).2.globalContainerCache d = none ∧
    (∀ k, k ≠ d →
      mapGet (DeleteFilesystem env d s).2.filesystems k = mapGet s.filesystems k ∧
      mapGet (DeleteFilesystem env d s).2.globalContainerCache k =
        mapGet s.globalContainerCache k) ∧
    (DeleteFilesystem env d s).2.trace =
      s.trace ++ [Effect.cleanupDockerFilesystemState, Effect.deleteFilesystemInZFS d] := by
  refine ⟨rfl, ?_, ?_, ?_, ?_⟩
  · simp [DeleteFilesystem, DeleteFilesystemFromMap, emit, mapGet_mapDelete_self]
  · simp [DeleteFilesystem, DeleteFilesystemFromMap, emit, mapGet_mapDelete_self]
  · intro k hk
    simp [DeleteFilesystem, DeleteFilesystemFromMap, emit, mapGet_mapDelete_ne _ d k hk]
  · simp [DeleteFilesystem, DeleteFilesystemFromMap, emit]

/-- Both side effects fail, `ds-B` is deleted all the same and `ds-A` is kept. -/
theorem DeleteFilesystem_best_effort_witness :
    (failingHooksEnv.cleanupDockerFilesystemState twoDatasetsState).isSome = true ∧
    (DeleteFilesystem failingHooksEnv "ds-B" twoDatasetsState).1 = none ∧
    mapGet (DeleteFilesystem failingHooksEnv "ds-B" twoDatasetsState).2.filesystems "ds-A" =
      some controllerA ∧
    mapGet (DeleteFilesystem failingHooksEnv "ds-B" twoDatasetsState).2.globalContainerCache
      "ds-A" = some ["web"] ∧
    (DeleteFilesystem failingHooksEnv "ds-B" twoDatasetsState).2.trace =
      [Effect.cleanupDockerFilesystemState, Effect.deleteFilesystemInZFS "ds-B"] :=
  ⟨by decide,
    (DeleteFilesystem_best_effort failingHooksEnv "ds-B" twoDatasetsState).1,
    ((DeleteFilesystem_best_effort failingHooksEnv "ds-B" twoDatasetsState).2.2.2.1 "ds-A"
      (by decide)).1.trans (by decide),
    ((DeleteFilesystem_best_effort failingHooksEnv "ds-B" twoDatasetsState).2.2.2.1 "ds-A"
      (by decide)).2.trans (by decide),
    (DeleteFilesystem_best_effort failingHooksEnv "ds-B" twoDatasetsState).2.2.2.2⟩

/-! ## AlignMountStateWithMasters -/

theorem effectsSince_append (s s' : InMemoryState) (l : List Effect)
    (h : s'.trace = s.trace ++ l) : effectsSince s s' = l := by
  simp [effectsSince, h]

/-- C5: one attempt of `AlignMountStateWithMasters(d)` follows the alignment
decision table. Without a controller for `d` it fails and makes no call. With
a controller `fs`, after the look-up that is only logged: if the master look-up
fails it returns an error and dispatches nothing; if the master is this node and
`fs` is not mounted it dispatches one mount and succeeds iff the response is
named "mounted"; if the master is another node and `fs` is mounted it
dispatches one unmount and succeeds iff the response is named "unmounted"; in
every other case it dispatches nothing and succeeds. No attempt dispatches both
a mount and an unmount. -/
theorem alignAttempt_decision_table (env : Env) (d : String) (s : InMemoryState) :
    (mapGet s.filesystems d = none →
      (AlignMountStateWithMasters.attempt env d s).1 ≠ none ∧
      (AlignMountStateWithMasters.attempt env d s).2 = s) ∧
    (∀ fs, mapGet s.filesystems d = some fs →
      (∀ e, (env.CurrentMasterNode d (emit (Effect.CurrentMasterNode d) s)).2 = some e →
        (AlignMountStateWithMasters.attempt env d s).1 ≠ none ∧
        effectsSince s (AlignMountStateWithMasters.attempt env d s).2 =
          [Effect.CurrentMasterNode d, Effect.CurrentMasterNode d]) ∧
      (∀ master, env.CurrentMasterNode d (emit (Effect.CurrentMasterNode d) s) =
          (master, none) →
        (master = s.myNodeId ∧ fs.filesystem.Mounted = false →
          effectsSince s (AlignMountStateWithMasters.attempt env d s).2 =
            [Effect.CurrentMasterNode d, Effect.CurrentMasterNode d, Effect.mount d] ∧
          ((AlignMountStateWithMasters.attempt env d s).1 = none ↔
            (env.mount fs (emit (Effect.CurrentMasterNode d)
              (emit (Effect.CurrentMasterNode d) s))).Name = "mounted")) ∧
        (master ≠ s.myNodeId ∧ fs.filesystem.Mounted = true →
          effectsSince s (AlignMountStateWithMasters.attempt env d s).2 =
            [Effect.CurrentMasterNode d, Effect.CurrentMasterNode d, Effect.unmount d] ∧
          ((AlignMountStateWithMasters.attempt env d s).1 = none ↔
            (env.unmount fs (emit (Effect.CurrentMasterNode d)
              (emit (Effect.CurrentMasterNode d) s))).Name = "unmounted")) ∧
        (¬ (master = s.myNodeId ∧ fs.filesystem.Mounted = false) ∧
            ¬ (master ≠ s.myNodeId ∧ fs.filesystem.Mounted = true) →
          effectsSince s (AlignMountStateWithMasters.attempt env d s).2 =
            [Effect.CurrentMasterNode d, Effect.CurrentMasterNode d] ∧
          (AlignMountStateWithMasters.attempt env d s).1 = none))) ∧
    ¬ (Effect.mount d ∈ effectsSince s (AlignMountStateWithMasters.attempt env d s).2 ∧
      Effect.unmount d ∈ effectsSince s (AlignMountStateWithMasters.attempt env d s).2) := by
  cases hm : mapGet s.filesystems d with
  | none =>
    refine ⟨fun _ => ?_, fun fs hfs => by simp at hfs, ?_⟩
    · simp [AlignMountStateWithMasters.attempt, hm]
    · simp [AlignMountStateWithMasters.attempt, hm, effectsSince]
  | some fs0 =>
    rcases hc : env.CurrentMasterNode d (emit (Effect.CurrentMasterNode d) s) with ⟨master, err⟩
    cases err with
    | some e0 =>
      have hA : AlignMountStateWithMasters.attempt env d s =
          (some (GoError.errorf "failed to get master node for filesystem: %s" [d]),
            emit (Effect.CurrentMasterNode d) (emit (Effect.CurrentMasterNode d) s)) := by
        simp [AlignMountStateWithMasters.attempt, hm, hc]
      have hE : effectsSince s (AlignMountStateWithMasters.attempt env d s).2 =
          [Effect.CurrentMasterNode d, Effect.CurrentMasterNode d] := by
        rw [hA]; exact effectsSince_append _ _ _ (by simp)
      refine ⟨fun h => by simp at h, fun fs hfs => ⟨fun e _ => ⟨by simp [hA], hE⟩,
        fun m hmm => by simp at hmm⟩, ?_⟩
      rw [hE]; simp
    | none =>
      by_cases h1 : master = s.myNodeId ∧ fs0.filesystem.Mounted = false
      · have hA : AlignMountStateWithMasters.attempt env d s =
            (if (env.mount fs0 (emit (Effect.CurrentMasterNode d)
                (emit (Effect.CurrentMasterNode d) s))).Name = "mounted" then none
              else some (GoError.errorf "Couldn't mount filesystem: %v"
                [(env.mount fs0 (emit (Effect.CurrentMasterNode d)
                  (emit (Effect.CurrentMasterNode d) s))).Name]),
              emit (Effect.mount d) (emit (Effect.CurrentMasterNode d)
                (emit (Effect.CurrentMasterNode d) s))) := by
          obtain ⟨h1a, h1b⟩ := h1
          by_cases hn : (env.mount fs0 (emit (Effect.CurrentMasterNode d)
                (emit (Effect.CurrentMasterNode d) s))).Name = "mounted"
          · simp only [AlignMountStateWithMasters.attempt, hm, hc]
            simp [h1a, h1b, hn]
          · simp only [AlignMountStateWithMasters.attempt, hm, hc]
            simp [h1a, h1b, hn]
        have hE : effectsSince s (AlignMountStateWithMasters.attempt env d s).2 =
            [Effect.CurrentMasterNode d, Effect.CurrentMasterNode d, Effect.mount d] := by
          rw [hA]; exact effectsSince_append _ _ _ (by simp)
        refine ⟨fun h => by simp at h, fun fs hfs => ?_, ?_⟩
        · simp only [Option.some.injEq] at hfs
          subst hfs
          refine ⟨fun e he => by simp at he, fun m hmm => ?_⟩
          simp only [Prod.mk.injEq, and_true] at hmm
          subst hmm
          refine ⟨fun _ => ⟨hE, ?_⟩, fun h2 => ?_, fun h3 => absurd h1 h3.1⟩
          · rw [hA]
            by_cases hn : (env.mount fs0 (emit (Effect.CurrentMasterNode d)
                (emit (Effect.CurrentMasterNode d) s))).Name = "mounted"
            · simp [hn]
            · simp [hn]
          · exact absurd h1.1 h2.1
        · rw [hE]; simp
      · by_cases h2 : master ≠ s.myNodeId ∧ fs0.filesystem.Mounted = true
        · have hA : AlignMountStateWithMasters.attempt env d s =
              (if (env.unmount fs0 (emit (Effect.CurrentMasterNode d)
                  (emit (Effect.CurrentMasterNode d) s))).Name = "unmounted" then none
                else some (GoError.errorf "Couldn't unmount filesystem: %v"
                  [(env.unmount fs0 (emit (Effect.CurrentMasterNode d)
                    (emit (Effect.CurrentMasterNode d) s))).Name]),
                emit (Effect.unmount d) (emit (Effect.CurrentMasterNode d)
                  (emit (Effect.CurrentMasterNode d) s))) := by
            obtain ⟨h2a, h2b⟩ := h2
            by_cases hn : (env.unmount fs0 (emit (Effect.CurrentMasterNode d)
                  (emit (Effect.CurrentMasterNode d) s))).Name = "unmounted"
            · simp only [AlignMountStateWithMasters.attempt, hm, hc]
              simp [h2a, h2b, hn]
            · simp only [AlignMountStateWithMasters.attempt, hm, hc]
              simp [h2a, h2b, hn]
          have hE : effectsSince s (AlignMountStateWithMasters.attempt env d s).2 =
              [Effect.CurrentMasterNode d, Effect.CurrentMasterNode d, Effect.unmount d] := by
            rw [hA]; exact effectsSince_append _ _ _ (by simp)
          refine ⟨fun h => by simp at h, fun fs hfs => ?_, ?_⟩
          · simp only [Option.some.injEq] at hfs
            subst hfs
            refine ⟨fun e he => by simp at he, fun m hmm => ?_⟩
            simp only [Prod.mk.injEq, and_true] at hmm
            subst hmm
            refine ⟨fun h3 => absurd h3 h1, fun _ => ⟨hE, ?_⟩, fun h3 => absurd h2 h3.2⟩
            rw [hA]
            by_cases hn : (env.unmount fs0 (emit (Effect.CurrentMasterNode d)
                (emit (Effect.CurrentMasterNode d) s))).Name = "unmounted"
            · simp [hn]
            · simp [hn]
          · rw [hE]; simp
        · have hA : AlignMountStateWithMasters.attempt env d s =
              (none, emit (Effect.CurrentMasterNode d) (emit (Effect.CurrentMasterNode d) s)) := by
            have h1' : ¬ (master = s.myNodeId ∧ fs0.filesystem.Mounted = false) := h1
            have h2' : ¬ (¬ master = s.myNodeId ∧ fs0.filesystem.Mounted = true) := h2
            simp only [AlignMountStateWithMasters.attempt, hm, hc]
            simp only [emit_myNodeId, h1', h2', if_false]
          have hE : effectsSince s (AlignMountStateWithMasters.attempt env d s).2 =
              [Effect.CurrentMasterNode d, Effect.CurrentMasterNode d] := by
            rw [hA]; exact effectsSince_append _ _ _ (by simp)
          refine ⟨fun h => by simp at h, fun fs hfs => ?_, ?_⟩
          · simp only [Option.some.injEq] at hfs
            subst hfs
            refine ⟨fun e he => by simp at he, fun m hmm => ?_⟩
            simp only [Prod.mk.injEq, and_true] at hmm
            subst hmm
            exact ⟨fun h3 => absurd h3 h1, fun h3 => absurd h3 h2, fun _ => ⟨hE, by rw [hA]⟩⟩
          · rw [hE]; simp

/-- Three runs of the table: no controller; this node is master and the
controller is not mounted (one mount); another node is master and the
controller is mounted (one unmount). -/
theorem alignAttempt_decision_table_witness :
    ((AlignMountStateWithMasters.attempt exampleEnv "ds-C" emptyState).1 ≠ none ∧
      (AlignMountStateWithMasters.attempt exampleEnv "ds-C" emptyState).2 = emptyState) ∧
    (effectsSince alignToMasterState
        (AlignMountStateWithMasters.attempt exampleEnv "ds-C" alignToMasterState).2 =
        [Effect.CurrentMasterNode "ds-C", Effect.CurrentMasterNode "ds-C", Effect.mount "ds-C"] ∧
      (AlignMountStateWithMasters.attempt exampleEnv "ds-C" alignToMasterState).1 = none) ∧
    (effectsSince alignAwayState
        (AlignMountStateWithMasters.attempt exampleEnv "ds-D" alignAwayState).2 =
        [Effect.CurrentMasterNode "ds-D", Effect.CurrentMasterNode "ds-D",
          Effect.unmount "ds-D"] ∧
      (AlignMountStateWithMasters.attempt exampleEnv "ds-D" alignAwayState).1 = none) :=
  ⟨(alignAttempt_decision_table exampleEnv "ds-C" emptyState).1 (by decide),
    ⟨((((alignAttempt_decision_table exampleEnv "ds-C" alignToMasterState).2.1
        { addr := 3, filesystemId := "ds-C", filesystem := { Mounted := false } }
        (by decide)).2 "node-A" (by decide)).1 (by decide)).1,
      ((((alignAttempt_decision_table exampleEnv "ds-C" alignToMasterState).2.1
        { addr := 3, filesystemId := "ds-C", filesystem := { Mounted := false } }
        (by decide)).2 "node-A" (by decide)).1 (by decide)).2.2 (by decide)⟩,
    ⟨((((alignAttempt_decision_table exampleEnv "ds-D" alignAwayState).2.1
        { addr := 4, filesystemId := "ds-D", filesystem := { Mounted := true } }
        (by decide)).2 "node-Z" (by decide)).2.1 (by decide)).1,
      ((((alignAttempt_decision_table exampleEnv "ds-D" alignAwayState).2.1
        { addr := 4, filesystemId := "ds-D", filesystem := { Mounted := true } }
        (by decide)).2 "node-Z" (by decide)).2.1 (by decide)).2.2 (by decide)⟩⟩

/-! ## ActivateClone -/

theorem InitFilesystemMachine_frame (env : Env) (d : String) (s : InMemoryState) :
    (InitFilesystemMachine env d s).2.2.myNodeId = s.myNodeId ∧
    (InitFilesystemMachine env d s).2.2.etcdClient = s.etcdClient ∧
    ∃ l, (InitFilesystemMachine env d s).2.2.trace = s.trace ++ l ∧
      ∀ k v, Effect.etcdSet k v ∉ l := by
  cases hm : mapGet s.filesystems d with
  | some fs =>
    rw [InitFilesystemMachine_present env d s fs hm]
    exact ⟨rfl, rfl, [], by simp, by simp⟩
  | none =>
    rcases ht : env.isFilesystemDeletedInEtcd d s with ⟨del, err⟩
    cases err with
    | some e =>
      simp only [InitFilesystemMachine, InitFilesystemMachine.lookupOrCreate, hm, ht]
      exact ⟨rfl, rfl, [Effect.tombstoneLookup d], by simp, by simp⟩
    | none =>
      cases del with
      | true =>
        simp only [InitFilesystemMachine, InitFilesystemMachine.lookupOrCreate, hm, ht,
          DeleteFilesystem, DeleteFilesystemFromMap]
        exact ⟨rfl, rfl, [Effect.tombstoneLookup d, Effect.cleanupDockerFilesystemState,
          Effect.deleteFilesystemInZFS d], by simp, by simp⟩
      | false =>
        simp only [InitFilesystemMachine, InitFilesystemMachine.lookupOrCreate, hm, ht,
          emit_filesystems, mapGet_mapSet_self]
        exact ⟨rfl, rfl, [Effect.tombstoneLookup d, Effect.newFilesystemMachine d,
          Effect.run (env.newFilesystemMachine d (emit (Effect.tombstoneLookup d) s))],
          by simp, by simp⟩

theorem register_frame (env : Env) (top origin snap child branch : String)
    (s : InMemoryState) :
    (ActivateClone.register env top origin snap child branch s).2.myNodeId = s.myNodeId ∧
    (ActivateClone.register env top origin snap child branch s).2.trace =
      s.trace ++ [Effect.RegisterClone branch top
        { FilesystemId := child, Origin := { FilesystemId := origin, SnapshotId := snap } }] := by
  simp [ActivateClone.register]

theorem etcdSetPrevNoExist_frame (env : Env) (key value : String) (s : InMemoryState) :
    (etcdSetPrevNoExist env key value s).2.trace = s.trace ++ [Effect.etcdSet key value] ∧
    ((etcdSetPrevNoExist env key value s).1 = none →
      mapGet (etcdSetPrevNoExist env key value s).2.etcdClient key = some value) := by
  unfold etcdSetPrevNoExist
  cases hf : env.etcdFault s with
  | some e => simp
  | none =>
    cases hk : mapGet s.etcdClient key with
    | some v => simp
    | none => simp [mapGet_mapSet_self]

/-- C6: `ActivateClone` registers the clone, then initialises the controller,
then claims mastership, and stops at the first failure. Here `(r1, s1)` is the
outcome of the registration on `s`, `(_, r2, s2)` that of
`InitFilesystemMachine` on `s1`, and `(r3, s3)` that of the create-only write of
`filesystems/masters/{child}` on `s2`. A failed registration is returned as
"failed-clone-registration" and is the only call made; a failed initialisation
is returned as "failed-to-initialize-state-machine" and no write to the store is
attempted; a failed write is returned as "failed-make-cloner-master"; the
result is `("", nil)` exactly when all three succeed, and then the master key
of the child holds this node's id. A write of the master key is attempted only
after the registration and the initialisation succeeded, and it is the last
call, after the registration. -/
theorem ActivateClone_ordered (env : Env) (top origin snap child branch : String)
    (s s1 s2 s3 : InMemoryState) (r1 r2 r3 : Option GoError) (fs : Option fsMachine)
    (hR : ActivateClone.register env top origin snap child branch s = (r1, s1))
    (hI : InitFilesystemMachine env child s1 = (fs, r2, s2))
    (hW : etcdSetPrevNoExist env (masterKey env child) s2.myNodeId s2 = (r3, s3)) :
    (∀ e, r1 = some e →
      ActivateClone env top origin snap child branch s =
        ("failed-clone-registration", some e, s1) ∧
      effectsSince s s1 = [Effect.RegisterClone branch top
        { FilesystemId := child, Origin := { FilesystemId := origin, SnapshotId := snap } }]) ∧
    (r1 = none → ∀ e, r2 = some e →
      ActivateClone env top origin snap child branch s =
        ("failed-to-initialize-state-machine", some e, s2) ∧
      ∀ k v, Effect.etcdSet k v ∉ effectsSince s s2) ∧
    (r1 = none → r2 = none → ∀ e, r3 = some e →
      ActivateClone env top origin snap child branch s =
        ("failed-make-cloner-master", some e, s3)) ∧
    ((ActivateClone env top origin snap child branch s).1 = "" ∧
        (ActivateClone env top origin snap child branch s).2.1 = none ↔
      r1 = none ∧ r2 = none ∧ r3 = none) ∧
    ((ActivateClone env top origin snap child branch s).1 = "" ∧
        (ActivateClone env top origin snap child branch s).2.1 = none →
      mapGet (ActivateClone env top origin snap child branch s).2.2.etcdClient
        (masterKey env child) = some s.myNodeId) ∧
    (∀ k v, Effect.etcdSet k v ∈
        effectsSince s (ActivateClone env top origin snap child branch s).2.2 →
      r1 = none ∧ r2 = none ∧
      ∃ l, effectsSince s (ActivateClone env top origin snap child branch s).2.2 =
        Effect.RegisterClone branch top
          { FilesystemId := child, Origin := { FilesystemId := origin, SnapshotId := snap } } ::
          (l ++ [Effect.etcdSet (masterKey env child) s.myNodeId]) ∧
        ∀ k' v', Effect.etcdSet k' v' ∉ l) := by
  have hRf := register_frame env top origin snap child branch s
  rw [hR] at hRf
  obtain ⟨hid1, htr1⟩ := hRf
  have hIf := InitFilesystemMachine_frame env child s1
  rw [hI] at hIf
  obtain ⟨hid2, _, l, htr2, hl⟩ := hIf
  have hWf := etcdSetPrevNoExist_frame env (masterKey env child) s2.myNodeId s2
  rw [hW] at hWf
  obtain ⟨htr3, hset⟩ := hWf
  simp only at hid1 htr1 hid2 htr2 htr3 hset
  have hE1 : effectsSince s s1 = [Effect.RegisterClone branch top
      { FilesystemId := child, Origin := { FilesystemId := origin, SnapshotId := snap } }] :=
    effectsSince_append s s1 _ htr1
  have hE2 : effectsSince s s2 = Effect.RegisterClone branch top
      { FilesystemId := child, Origin := { FilesystemId := origin, SnapshotId := snap } } :: l :=
    effectsSince_append s s2 _ (by rw [htr2, htr1]; simp)
  have hE3 : effectsSince s s3 = Effect.RegisterClone branch top
      { FilesystemId := child, Origin := { FilesystemId := origin, SnapshotId := snap } } ::
      (l ++ [Effect.etcdSet (masterKey env child) s.myNodeId]) :=
    effectsSince_append s s3 _ (by rw [htr3, htr2, htr1, hid2, hid1]; simp)
  cases r1 with
  | some e1 =>
    have hA : ActivateClone env top origin snap child branch s =
        ("failed-clone-registration", some e1, s1) := by
      simp [ActivateClone, hR]
    rw [hA]
    refine ⟨fun e he => ?_, fun h => by simp at h, fun h => by simp at h, by simp, by simp, ?_⟩
    · simp only [Option.some.injEq] at he
      subst he
      exact ⟨rfl, hE1⟩
    · intro k v hin
      simp [hE1] at hin
  | none =>
    cases r2 with
    | some e2 =>
      have hA : ActivateClone env top origin snap child branch s =
          ("failed-to-initialize-state-machine", some e2, s2) := by
        simp [ActivateClone, hR, hI]
      rw [hA]
      refine ⟨fun e he => by simp at he, fun _ e he => ?_, fun _ h => by simp at h, by simp,
        by simp, ?_⟩
      · simp only [Option.some.injEq] at he
        subst he
        refine ⟨rfl, fun k v hin => ?_⟩
        rw [hE2] at hin
        simp only [List.mem_cons] at hin
        rcases hin with hin | hin
        · cases hin
        · exact hl k v hin
      · intro k v hin
        rw [hE2] at hin
        simp only [List.mem_cons] at hin
        rcases hin with hin | hin
        · cases hin
        · exact absurd hin (hl k v)
    | none =>
      cases r3 with
      | some e3 =>
        have hA : ActivateClone env top origin snap child branch s =
            ("failed-make-cloner-master", some e3, s3) := by
          simp [ActivateClone, hR, hI, hW]
        rw [hA]
        refine ⟨fun e he => by simp at he, fun _ e he => by simp at he, fun _ _ e he => ?_,
          by simp, by simp, fun k v _ => ⟨rfl, rfl, l, hE3, hl⟩⟩
        simp only [Option.some.injEq] at he
        subst he
        rfl
      | none =>
        have hA : ActivateClone env top origin snap child branch s = ("", none, s3) := by
          simp [ActivateClone, hR, hI, hW]
        rw [hA]
        refine ⟨fun e he => by simp at he, fun _ e he => by simp at he,
          fun _ _ e he => by simp at he, by simp, fun _ => ?_,
          fun k v _ => ⟨rfl, rfl, l, hE3, hl⟩⟩
        have h := hset rfl
        rw [hid2, hid1] at h
        exact h

/-- The happy path of the spec: an empty clone tree and no master for `ds-C1`. -/
theorem ActivateClone_ordered_witness :
    (ActivateClone.register exampleEnv "ds-P" "ds-P" "snap-1" "ds-C1" "feature" cloneReadyState =
        (none, cloneRegisteredState) ∧
      InitFilesystemMachine exampleEnv "ds-C1" cloneRegisteredState =
        (some controllerC1, none, cloneInitialisedState) ∧
      etcdSetPrevNoExist exampleEnv (masterKey exampleEnv "ds-C1")
        cloneInitialisedState.myNodeId cloneInitialisedState = (none, cloneActivatedState)) ∧
    ((ActivateClone exampleEnv "ds-P" "ds-P" "snap-1" "ds-C1" "feature" cloneReadyState).1 = "" ∧
      (ActivateClone exampleEnv "ds-P" "ds-P" "snap-1" "ds-C1" "feature"
        cloneReadyState).2.1 = none) ∧
    mapGet (ActivateClone exampleEnv "ds-P" "ds-P" "snap-1" "ds-C1" "feature"
      cloneReadyState).2.2.etcdClient (masterKey exampleEnv "ds-C1") =
        some cloneReadyState.myNodeId :=
  ⟨by decide,
    (ActivateClone_ordered exampleEnv "ds-P" "ds-P" "snap-1" "ds-C1" "feature" cloneReadyState
      cloneRegisteredState cloneInitialisedState cloneActivatedState none none none
      (some controllerC1) (by decide) (by decide) (by decide)).2.2.2.1.mpr ⟨rfl, rfl, rfl⟩,
    (ActivateClone_ordered exampleEnv "ds-P" "ds-P" "snap-1" "ds-C1" "feature" cloneReadyState
      cloneRegisteredState cloneInitialisedState cloneActivatedState none none none
      (some controllerC1) (by decide) (by decide) (by decide)).2.2.2.2.1
      ((ActivateClone_ordered exampleEnv "ds-P" "ds-P" "snap-1" "ds-C1" "feature"
        cloneReadyState cloneRegisteredState cloneInitialisedState cloneActivatedState none none
        none (some controllerC1) (by decide) (by decide) (by decide)).2.2.2.1.mpr
        ⟨rfl, rfl, rfl⟩)⟩

namespace store

/-! ## SetFilesystem and CompareAndSetFilesystem -/

/-- C7, evaluated where it fails. `SetFilesystem` with an empty `Name` (and
`Id`, `OwnerId` set) sends a create for the key `registry/filesystems/alice/`
and returns its result, here nil; `CompareAndSetFilesystem` with an empty `Id`
(and `OwnerId`, `Name` set) sends a compare-and-set and returns nil. -/
theorem registry_writes_skip_a_field_check :
    SetFilesystem exampleStore { applesFilesystem with Name := "" }
        { KVFlags := 0, PrevValue := [] } =
      (none, [KVOp.Create "registry/filesystems/alice/" [4, 5, 0] 0]) ∧
    CompareAndSetFilesystem exampleStore { applesFilesystem with Id := "" }
        { KVFlags := 0, PrevValue := [7] } =
      (none, [KVOp.CompareAndSet "registry/filesystems/alice/apples" [0, 5, 6] 0 [7]]) := by
  decide

/-! ## ListFilesystems and ListClones -/

theorem foldl_ListFilesystems_step (s : KVDBFilesystemStore) (pairs : List KVPair)
    (acc : List RegistryFilesystem) :
    pairs.foldl (ListFilesystems.step s) acc = acc ++ pairs.filterMap (filesystemOfPair s) := by
  induction pairs generalizing acc with
  | nil => simp
  | cons kvp rest ih =>
    rw [List.foldl_cons, ih]
    cases h : s.unmarshalFilesystem kvp.Value with
    | error e => simp [ListFilesystems.step, filesystemOfPair, h]
    | ok val => simp [ListFilesystems.step, filesystemOfPair, h]

theorem foldl_ListClones_step (s : KVDBFilesystemStore) (pairs : List KVPair)
    (acc : List Clone) :
    pairs.foldl (ListClones.step s) acc = acc ++ pairs.filterMap (cloneOfPair s) := by
  induction pairs generalizing acc with
  | nil => simp
  | cons kvp rest ih =>
    rw [List.foldl_cons, ih]
    cases h : s.unmarshalClone kvp.Value with
    | error e => simp [ListClones.step, cloneOfPair, h]
    | ok val => simp [ListClones.step, cloneOfPair, h]

theorem length_filterMap_countP {α β : Type} (f : α → Option β) (l : List α) :
    (l.filterMap f).length = l.countP (fun a => (f a).isSome) := by
  induction l with
  | nil => rfl
  | cons a rest ih =>
    cases h : f a with
    | none => simp [List.filterMap_cons, h, ih]
    | some b => simp [List.filterMap_cons, h, ih]

/-- C9: enumeration skips malformed entries and never aborts. When the store's
enumerate returns the pairs `pairs` without error, `ListFilesystems` returns,
with a nil error, the records of the pairs whose value decodes, in enumeration
order, each with `Meta` of its own pair, so that the result has as many elements
as there are decodable pairs; and `ListFilesystems` returns an error exactly
when enumerate does. The same holds of `ListClones`. -/
theorem list_skips_malformed_entries (s : KVDBFilesystemStore) :
    ((∀ pairs, s.Enumerate RegistryFilesystemsPrefix = (pairs, none) →
        ListFilesystems s = (pairs.filterMap (filesystemOfPair s), none) ∧
        (ListFilesystems s).1.length =
          pairs.countP (fun kvp => (filesystemOfPair s kvp).isSome)) ∧
      ((ListFilesystems s).2 ≠ none ↔ (s.Enumerate RegistryFilesystemsPrefix).2 ≠ none)) ∧
    ((∀ pairs, s.Enumerate RegistryClonesPrefix = (pairs, none) →
        ListClones s = (pairs.filterMap (cloneOfPair s), none) ∧
        (ListClones s).1.length = pairs.countP (fun kvp => (cloneOfPair s kvp).isSome)) ∧
      ((ListClones s).2 ≠ none ↔ (s.Enumerate RegistryClonesPrefix).2 ≠ none)) := by
  refine ⟨⟨fun pairs h => ?_, ?_⟩, ⟨fun pairs h => ?_, ?_⟩⟩
  · have hL : ListFilesystems s = (pairs.filterMap (filesystemOfPair s), none) := by
      simp [ListFilesystems, h, foldl_ListFilesystems_step]
    rw [hL]
    exact ⟨rfl, length_filterMap_countP _ _⟩
  · rcases h : s.Enumerate RegistryFilesystemsPrefix with ⟨pairs, err⟩
    cases err with
    | none => simp [ListFilesystems, h]
    | some e => simp [ListFilesystems, h]
  · have hL : ListClones s = (pairs.filterMap (cloneOfPair s), none) := by
      simp [ListClones, h, foldl_ListClones_step]
    rw [hL]
    exact ⟨rfl, length_filterMap_countP _ _⟩
  · rcases h : s.Enumerate RegistryClonesPrefix with ⟨pairs, err⟩
    cases err with
    | none => simp [ListClones, h]
    | some e => simp [ListClones, h]

/-- Three pairs, the middle one malformed: two records come back, in order. -/
theorem list_skips_malformed_entries_witness :
    exampleStore.Enumerate RegistryFilesystemsPrefix = (examplePairs, none) ∧
    ListFilesystems exampleStore =
      ([{ applesFilesystem with
            Meta := some { Key := "registry/filesystems/alice/apples", ModifiedIndex := 10 } },
        { pearsFilesystem with
            Meta := some { Key := "registry/filesystems/bob/pears", ModifiedIndex := 12 } }],
        none) ∧
    (ListFilesystems exampleStore).1.length = 2 ∧
    (ListClones exampleStore).1.length = 1 :=
  ⟨by decide,
    (((list_skips_malformed_entries exampleStore).1.1 examplePairs (by decide)).1).trans
      (by decide),
    (((list_skips_malformed_entries exampleStore).1.1 examplePairs (by decide)).2).trans
      (by decide),
    (((list_skips_malformed_entries exampleStore).2.1 exampleClonePairs (by decide)).2).trans
      (by decide)⟩

/-! ## WatchFilesystems and WatchClones -/

/-- C10, as stated, fails, in two ways. The value of `brokenPair` does not
decode, and the handler of `WatchFilesystems` returns a non-nil error for it,
with the text shown (likewise the handler of `WatchClones` for
`brokenClonePair`). And for an event that carries a transport error and no
pair, neither handler returns: each reads `kvp.Value` of a nil pair. -/
theorem watch_handler_decode_failure_counterexample :
    (exampleStore.decodeFilesystem brokenPair.Value =
        Except.error (GoError.external "unexpected end of JSON input") ∧
      ¬ ((WatchFilesystems.watchFunc exampleStore acceptFilesystem "registry/filesystems/"
          (some brokenPair) none).1 = Outcome.returned none) ∧
      (WatchFilesystems.watchFunc exampleStore acceptFilesystem "registry/filesystems/"
          (some brokenPair) none).1 =
        Outcome.returned (some (GoError.errorf
          "failed to decode value from key '%s', error: %s"
          ["registry/filesystems/", "unexpected end of JSON input"])) ∧
      errorText (GoError.errorf "failed to decode value from key '%s', error: %s"
          ["registry/filesystems/", "unexpected end of JSON input"]) =
        "failed to decode value from key 'registry/filesystems/', error: unexpected end of JSON input" ∧
      ¬ ((WatchClones.watchFunc exampleStore acceptClone "registry/clones/"
          (some brokenClonePair) none).1 = Outcome.returned none)) ∧
    ((WatchFilesystems.watchFunc exampleStore acceptFilesystem "registry/filesystems/" none
        (some (GoError.external "watch stopped"))).1 = Outcome.nilDereference ∧
      (WatchClones.watchFunc exampleStore acceptClone "registry/clones/" none
        (some (GoError.external "watch stopped"))).1 = Outcome.nilDereference) :=
  ⟨⟨rfl, by decide, by decide, by decide, by decide⟩, by decide, by decide⟩

/-- C10, amended. For every event handed to the handler with a pair `kvp`,
whether or not it also carries a transport error `err`: if the value of the
pair fails to decode with error `e`, the handler does not invoke the callback
and returns the error `failed to decode value from key '%s', error: %s` made
from the key prefix and `e`; if the value decodes, the callback is invoked
exactly once, with the decoded record whose `Meta` comes from the event, and
the handler returns the callback's result; in both cases the outcome is the one
of the same pair without a transport error. The same holds of the handler of
`WatchClones`. -/
theorem watch_handler_behaviour (s : KVDBFilesystemStore) (keyPrefix : String)
    (kvp : KVPair) (err : Option GoError) :
    (∀ (cb : RegistryFilesystem → Option GoError),
      (∀ e, s.decodeFilesystem kvp.Value = Except.error e →
        WatchFilesystems.watchFunc s cb keyPrefix (some kvp) err =
          (Outcome.returned (some (GoError.errorf
            "failed to decode value from key '%s', error: %s" [keyPrefix, errorText e])),
            [])) ∧
      (∀ f, s.decodeFilesystem kvp.Value = Except.ok f →
        WatchFilesystems.watchFunc s cb keyPrefix (some kvp) err =
          (Outcome.returned (cb { f with Meta := some (s.getMeta kvp) }),
            [{ f with Meta := some (s.getMeta kvp) }])) ∧
      WatchFilesystems.watchFunc s cb keyPrefix (some kvp) err =
        WatchFilesystems.watchFunc s cb keyPrefix (some kvp) none) ∧
    (∀ (cb : Clone → Option GoError),
      (∀ e, s.decodeClone kvp.Value = Except.error e →
        WatchClones.watchFunc s cb keyPrefix (some kvp) err =
          (Outcome.returned (some (GoError.errorf
            "failed to decode value from key '%s', error: %s" [keyPrefix, errorText e])),
            [])) ∧
      (∀ c, s.decodeClone kvp.Value = Except.ok c →
        WatchClones.watchFunc s cb keyPrefix (some kvp) err =
          (Outcome.returned (cb { c with Meta := some (s.getMeta kvp) }),
            [{ c with Meta := some (s.getMeta kvp) }])) ∧
      WatchClones.watchFunc s cb keyPrefix (some kvp) err =
        WatchClones.watchFunc s cb keyPrefix (some kvp) none) := by
  refine ⟨fun cb => ⟨fun e h => ?_, fun f h => ?_, rfl⟩,
    fun cb => ⟨fun e h => ?_, fun c h => ?_, rfl⟩⟩
  · simp [WatchFilesystems.watchFunc, h]
  · simp [WatchFilesystems.watchFunc, h]
  · simp [WatchClones.watchFunc, h]
  · simp [WatchClones.watchFunc, h]

/-- Two events that carry a pair and a transport error. For the decodable
`applesPair` the callback gets its record with `Meta` of the event and its
result is returned; for the undecodable `brokenPair` the callback is not
invoked and the decode error is returned. -/
theorem watch_handler_behaviour_witness :
    (exampleStore.decodeFilesystem applesPair.Value = Except.ok applesFilesystem ∧
      WatchFilesystems.watchFunc exampleStore acceptFilesystem "registry/filesystems/"
          (some applesPair) (some (GoError.external "connection reset")) =
        (Outcome.returned none,
          [{ applesFilesystem with
              Meta := some { Key := "registry/filesystems/alice/apples", ModifiedIndex := 10 } }])) ∧
    (exampleStore.decodeFilesystem brokenPair.Value =
        Except.error (GoError.external "unexpected end of JSON input") ∧
      WatchFilesystems.watchFunc exampleStore acceptFilesystem "registry/filesystems/"
          (some brokenPair) (some (GoError.external "connection reset")) =
        (Outcome.returned (some (GoError.errorf
          "failed to decode value from key '%s', error: %s"
          ["registry/filesystems/",
            errorText (GoError.external "unexpected end of JSON input")])), [])) :=
  ⟨⟨rfl,
      ((watch_handler_behaviour exampleStore "registry/filesystems/" applesPair
        (some (GoError.external "connection reset"))).1 acceptFilesystem).2.1 applesFilesystem
        rfl⟩,
    ⟨rfl,
      ((watch_handler_behaviour exampleStore "registry/filesystems/" brokenPair
        (some (GoError.external "connection reset"))).1 acceptFilesystem).1
        (GoError.external "unexpected end of JSON input") rfl⟩⟩

end store

namespace user

/-! ## Constant-time comparison -/

theorem or_eq_zero_iff (a b : Nat) : a ||| b = 0 ↔ a = 0 ∧ b = 0 := by
  constructor
  · intro h
    have hbit : ∀ i, a.testBit i = false ∧ b.testBit i = false := by
      intro i
      have h1 : (a ||| b).testBit i = false := by rw [h]; exact Nat.zero_testBit i
      rw [Nat.testBit_or] at h1
      simpa using h1
    exact ⟨Nat.eq_of_testBit_eq (fun i => by rw [(hbit i).1, Nat.zero_testBit]),
      Nat.eq_of_testBit_eq (fun i => by rw [(hbit i).2, Nat.zero_testBit])⟩
  · rintro ⟨rfl, rfl⟩
    rfl

theorem ConstantTimeByteEq_zero (v : Nat) (h : v < 256) :
    ConstantTimeByteEq v 0 = 1 ↔ v = 0 := by
  unfold ConstantTimeByteEq
  rw [Nat.xor_zero, Nat.shiftRight_eq_div_pow]
  omega

theorem byte_step_lt (v : Nat) (a b : Byte) : (v ||| (a.val ^^^ b.val)) % 256 < 256 :=
  Nat.mod_lt _ (by decide)

theorem byte_step_eq_zero (v : Nat) (a b : Byte) (hv : v < 256) :
    (v ||| (a.val ^^^ b.val)) % 256 = 0 ↔ v = 0 ∧ a = b := by
  have hx : a.val ^^^ b.val < 2 ^ 8 := Nat.xor_lt_two_pow a.isLt b.isLt
  have ho : v ||| (a.val ^^^ b.val) < 256 := Nat.or_lt_two_pow (n := 8) hv hx
  rw [Nat.mod_eq_of_lt ho, or_eq_zero_iff, Nat.xor_eq_zero, Fin.val_inj]

theorem loop_eq_zero (x : List Byte) : ∀ (y : List Byte) (v : Nat), v < 256 →
    x.length = y.length →
    (ConstantTimeCompare.loop x y v < 256 ∧
      (ConstantTimeCompare.loop x y v = 0 ↔ v = 0 ∧ x = y)) := by
  induction x with
  | nil =>
    intro y v hv hlen
    cases y with
    | nil => simp [ConstantTimeCompare.loop, hv]
    | cons b y => simp at hlen
  | cons a x ih =>
    intro y v hv hlen
    cases y with
    | nil => simp at hlen
    | cons b y =>
      have hlen' : x.length = y.length := by simpa using hlen
      have h := ih y _ (byte_step_lt v a b) hlen'
      simp only [ConstantTimeCompare.loop]
      refine ⟨h.1, ?_⟩
      rw [h.2, byte_step_eq_zero v a b hv]
      constructor
      · rintro ⟨⟨h1, h2⟩, h3⟩
        exact ⟨h1, by rw [h2, h3]⟩
      · rintro ⟨h1, h2⟩
        injection h2 with h3 h4
        exact ⟨⟨h1, h3⟩, h4⟩

theorem ConstantTimeCompare_eq_one_iff (x y : List Byte) :
    ConstantTimeCompare x y = 1 ↔ x = y := by
  unfold ConstantTimeCompare
  by_cases hlen : x.length = y.length
  · have h := loop_eq_zero x y 0 (by decide) hlen
    rw [if_neg (not_not.mpr hlen), ConstantTimeByteEq_zero _ h.1, h.2]
    simp
  · rw [if_pos hlen]
    constructor
    · intro h
      cases h
    · intro h
      exact absurd (congrArg List.length h) hlen

/-! ## Authenticate -/

/-- C11: `Authenticate` decides by API key first, then by password.
When `Get` resolves `ref` to the user `u`: the call returns `(u, APIKey)` with a
nil error iff the credential `c` equals `u.ApiKey` byte for byte; otherwise it
returns `(u, Password)` with a nil error iff `scrypt.Key` of `c` and `u.Salt`
returns `u.Password` without error; otherwise it returns no user, the type None
and an error. When `Get` resolves `ref` to no user, the call returns no user,
the type None and the error of `Get`. -/
theorem Authenticate_decision (m : DefaultManager) (ref c : String) :
    (∀ u ops, Get m { Ref := ref, Selector := "" } = (Except.ok u, ops) →
      ((Authenticate m ref c).1 =
          (some u, AuthenticationType.AuthenticationTypeAPIKey, none) ↔
        bytesOf c = bytesOf u.ApiKey) ∧
      (bytesOf c ≠ bytesOf u.ApiKey →
        ((Authenticate m ref c).1 =
            (some u, AuthenticationType.AuthenticationTypePassword, none) ↔
          m.scryptKey (bytesOf c) u.Salt m.SCRYPT_N m.SCRYPT_R m.SCRYPT_P m.HASH_BYTES =
            (u.Password, none)) ∧
        (m.scryptKey (bytesOf c) u.Salt m.SCRYPT_N m.SCRYPT_R m.SCRYPT_P m.HASH_BYTES ≠
            (u.Password, none) →
          (Authenticate m ref c).1.1 = none ∧
          (Authenticate m ref c).1.2.1 = AuthenticationType.AuthenticationTypeNone ∧
          (Authenticate m ref c).1.2.2 ≠ none))) ∧
    (∀ e ops, Get m { Ref := ref, Selector := "" } = (Except.error e, ops) →
      (Authenticate m ref c).1 = (none, AuthenticationType.AuthenticationTypeNone, some e)) := by
  refine ⟨fun u ops hget => ?_, fun e ops hget => ?_⟩
  · by_cases hkey : bytesOf c = bytesOf u.ApiKey
    · have hA : (Authenticate m ref c).1 =
          (some u, AuthenticationType.AuthenticationTypeAPIKey, none) := by
        simp [Authenticate, hget, ConstantTimeCompare_eq_one_iff, hkey]
      exact ⟨⟨fun _ => hkey, fun _ => hA⟩, fun h => absurd hkey h⟩
    · have hkey' : ¬ bytesOf u.ApiKey = bytesOf c := fun h => hkey h.symm
      rcases hs : m.scryptKey (bytesOf c) u.Salt m.SCRYPT_N m.SCRYPT_R m.SCRYPT_P
        m.HASH_BYTES with ⟨hashed, err⟩
      cases err with
      | some e =>
        have hA : (Authenticate m ref c).1 =
            (none, AuthenticationType.AuthenticationTypeNone, some e) := by
          simp [Authenticate, hget, ConstantTimeCompare_eq_one_iff, hkey', hs]
        rw [hA]
        exact ⟨⟨fun h => by simp at h, fun h => absurd h hkey⟩,
          fun _ => ⟨⟨fun h => by simp at h, fun h => by simp at h⟩,
            fun _ => ⟨rfl, rfl, by simp⟩⟩⟩
      | none =>
        by_cases hpw : u.Password = hashed
        · have hA : (Authenticate m ref c).1 =
              (some u, AuthenticationType.AuthenticationTypePassword, none) := by
            simp [Authenticate, hget, ConstantTimeCompare_eq_one_iff, hkey', hs, hpw]
          rw [hA]
          exact ⟨⟨fun h => by simp at h, fun h => absurd h hkey⟩,
            fun _ => ⟨⟨fun _ => by rw [hpw], fun _ => rfl⟩,
              fun h => absurd (by rw [hpw]) h⟩⟩
        · have hA : (Authenticate m ref c).1 =
              (none, AuthenticationType.AuthenticationTypeNone,
                some (GoError.errorf "Username or password doesn't match" [])) := by
            simp [Authenticate, hget, ConstantTimeCompare_eq_one_iff, hkey', hs, hpw]
          rw [hA]
          refine ⟨⟨fun h => by simp at h, fun h => absurd h hkey⟩,
            fun _ => ⟨⟨fun h => by simp at h, fun h => ?_⟩, fun _ => ⟨rfl, rfl, by simp⟩⟩⟩
          simp only [Prod.mk.injEq, and_true] at h
          exact absurd h.symm hpw
  · simp [Authenticate, hget]

/-- The scenario of the spec: user `u1` with API key `K`. `Authenticate("u1", K)`
returns `(u1, APIKey)`, and `Authenticate("u1", "wrong")` fails. -/
theorem Authenticate_decision_witness :
    Get exampleManager { Ref := "u1", Selector := "" } =
      (Except.ok userU1, [IndexOp.AddToIndex "users" "u1" "id-u1"]) ∧
    (Authenticate exampleManager "u1" "K").1 =
      (some userU1, AuthenticationType.AuthenticationTypeAPIKey, none) ∧
    ((Authenticate exampleManager "u1" "wrong").1.1 = none ∧
      (Authenticate exampleManager "u1" "wrong").1.2.1 =
        AuthenticationType.AuthenticationTypeNone ∧
      (Authenticate exampleManager "u1" "wrong").1.2.2 ≠ none) :=
  ⟨rfl,
    (((Authenticate_decision exampleManager "u1" "K").1 userU1
      [IndexOp.AddToIndex "users" "u1" "id-u1"] rfl).1).mpr (by decide),
    (((Authenticate_decision exampleManager "u1" "wrong").1 userU1
      [IndexOp.AddToIndex "users" "u1" "id-u1"] rfl).2 (by decide)).2 (by decide)⟩

/-! ## User.String -/

/-- C12: `User.String` redacts the API key. Two `User` records that agree on
every field except `ApiKey` have the same text, and in that text the `ApiKey`
field is rendered as ` ApiKey=****,`: the text is made of the other six fields
and does not mention the value of the API key. -/
theorem String_redacts_ApiKey (renderBytes : List Byte → String)
    (renderMap : List (String × String) → String) (u v : User)
    (hId : u.Id = v.Id) (hName : u.Name = v.Name) (hEmail : u.Email = v.Email)
    (hSalt : u.Salt = v.Salt) (hPassword : u.Password = v.Password)
    (hMetadata : u.Metadata = v.Metadata) :
    User.String renderBytes renderMap u = User.String renderBytes renderMap v ∧
    User.String renderBytes renderMap u =
      (" Id=" ++ u.Id ++ ",") ++ (" Name=" ++ u.Name ++ ",") ++ (" Email=" ++ u.Email ++ ",") ++
        (" Salt=" ++ renderBytes u.Salt ++ ",") ++
        (" Password=" ++ renderBytes u.Password ++ ",") ++
        " ApiKey=****," ++ (" Metadata=" ++ renderMap u.Metadata ++ ",") := by
  have hform : ∀ w : User, User.String renderBytes renderMap w =
      (" Id=" ++ w.Id ++ ",") ++ (" Name=" ++ w.Name ++ ",") ++ (" Email=" ++ w.Email ++ ",") ++
        (" Salt=" ++ renderBytes w.Salt ++ ",") ++
        (" Password=" ++ renderBytes w.Password ++ ",") ++
        " ApiKey=****," ++ (" Metadata=" ++ renderMap w.Metadata ++ ",") := by
    intro w
    simp [User.String, userFields, User.String.step, String.append_assoc]
  refine ⟨?_, hform u⟩
  rw [hform u, hform v, hId, hName, hEmail, hSalt, hPassword, hMetadata]

/-- Two records of `u1` that differ in the API key only. -/
theorem String_redacts_ApiKey_witness :
    User.String exampleRenderBytes exampleRenderMap userU1 =
      User.String exampleRenderBytes exampleRenderMap { userU1 with ApiKey := "another key" } ∧
    User.String exampleRenderBytes exampleRenderMap userU1 =
      " Id=id-u1, Name=u1, Email=u1@example.com, Salt=**, Password=********, ApiKey=****, Metadata=map[]," :=
  ⟨(String_redacts_ApiKey exampleRenderBytes exampleRenderMap userU1
      { userU1 with ApiKey := "another key" } rfl rfl rfl rfl rfl rfl).1,
    ((String_redacts_ApiKey exampleRenderBytes exampleRenderMap userU1
      { userU1 with ApiKey := "another key" } rfl rfl rfl rfl rfl rfl).2).trans (by decide)⟩

end user

end Dotmesh
